import Mathlib

/-!
Shallow embedding of the chicken-farm ERP backend (TypeScript + Drizzle/Postgres)
and proofs about its handlers.

Modelling conventions, fixed once for the whole file:
* Database numeric columns and JavaScript numbers are modelled as `ℚ`;
  the `numeric(p,s)` storage scale and IEEE-754 rounding are not modelled,
  so all arithmetic relations are exact.
* `date` columns hold `YYYY-MM-DD` strings compared lexicographically in the
  source, which coincides with chronological order; days are modelled as `Nat`
  with the usual order.  The `Date → toISOString().split('T')[0]` conversion at
  the handler boundary is the identity in this model.
* `created_at` / `updated_at` timestamps are not modelled.
* `serial` primary keys are modelled by one fresh-id counter per table.
* Every handler throws before performing any write on its failure paths, so a
  handler is modelled as `input → DB → Except String (result × DB)`; an
  `Except.error` result leaves the caller with the unchanged pre-state, which
  is exactly the source behaviour.
* Postgres-level foreign-key constraints declared in `db/schema.ts` are not
  re-modelled; no theorem below depends on them.
-/

namespace ChickenFarm

/-- Character-list test used to model substring matching of error messages
(the test suites match thrown messages by substring). -/
def charsLead : List Char → List Char → Bool
  | [], _ => true
  | _ :: _, [] => false
  | p :: ps, c :: cs => p == c && charsLead ps cs

/-- Does the pattern occur as a contiguous substring of the string? -/
def charsHaveSub : List Char → List Char → Bool
  | [], pat => charsLead pat []
  | c :: cs, pat => charsLead pat (c :: cs) || charsHaveSub cs pat

/-- Substring containment on `String`, used to state which thrown error
messages match which test substrings. -/
def strHasSub (s pat : String) : Bool :=
  charsHaveSub s.data pat.data

/-! ## Data model (`src/server/src/db/schema.ts`) -/

/-- Egg quality enum (`egg_quality`: A, B, cracked). -/
inductive EggQuality
  | A
  | B
  | cracked
deriving DecidableEq

/-- Expense type enum (`expense_type`). -/
inductive ExpenseType
  | medication
  | electricity
  | labor
  | other
deriving DecidableEq

/-- Row of `raw_feed_materials`. -/
structure RawMaterial where
  id : Nat
  name : String
  price_per_kg : ℚ
deriving DecidableEq

/-- Row of `finished_feeds`; `cost_per_kg` is the derived weighted cost. -/
structure FinishedFeed where
  id : Nat
  name : String
  cost_per_kg : ℚ
deriving DecidableEq

/-- Row of `feed_compositions` (junction of finished feeds and raw materials). -/
structure FeedComposition where
  id : Nat
  finished_feed_id : Nat
  raw_material_id : Nat
  percentage : ℚ
deriving DecidableEq

/-- Row of `chicken_flocks`. -/
structure ChickenFlock where
  id : Nat
  strain : String
  entry_date : Nat
  initial_count : Nat
  age_upon_entry_days : Nat
  current_count : Nat
deriving DecidableEq

/-- Row of `feed_consumptions`; `cost` is derived at write time. -/
structure FeedConsumption where
  id : Nat
  flock_id : Nat
  finished_feed_id : Nat
  consumption_date : Nat
  quantity_kg : ℚ
  cost : ℚ
deriving DecidableEq

/-- Row of `egg_productions`. -/
structure EggProduction where
  id : Nat
  flock_id : Nat
  production_date : Nat
  quality : EggQuality
  quantity : Nat
deriving DecidableEq

/-- Row of `egg_sales`; `total_price` is derived as quantity × price. -/
structure EggSale where
  id : Nat
  sale_date : Nat
  quality : EggQuality
  quantity : Nat
  price_per_egg : ℚ
  total_price : ℚ
deriving DecidableEq

/-- Row of `other_expenses`. -/
structure OtherExpense where
  id : Nat
  expense_date : Nat
  expense_type : ExpenseType
  description : String
  amount : ℚ
deriving DecidableEq

/-- The whole relational store, one list per table plus one serial counter per
table. -/
structure DB where
  rawMaterials : List RawMaterial
  finishedFeeds : List FinishedFeed
  feedCompositions : List FeedComposition
  chickenFlocks : List ChickenFlock
  feedConsumptions : List FeedConsumption
  eggProductions : List EggProduction
  eggSales : List EggSale
  otherExpenses : List OtherExpense
  nextRawMaterialId : Nat
  nextFinishedFeedId : Nat
  nextCompositionId : Nat
  nextFlockId : Nat
  nextConsumptionId : Nat
  nextProductionId : Nat
  nextSaleId : Nat
  nextExpenseId : Nat
deriving DecidableEq

/-- The empty database. -/
def DB.empty : DB :=
  { rawMaterials := [], finishedFeeds := [], feedCompositions := [],
    chickenFlocks := [], feedConsumptions := [], eggProductions := [],
    eggSales := [], otherExpenses := [],
    nextRawMaterialId := 1, nextFinishedFeedId := 1, nextCompositionId := 1,
    nextFlockId := 1, nextConsumptionId := 1, nextProductionId := 1,
    nextSaleId := 1, nextExpenseId := 1 }

/-! ## Handler input types (`src/server/src/schema.ts`, zod schemas) -/

/-- Input of `createRawFeedMaterial`. -/
structure CreateRawFeedMaterialInput where
  name : String
  price_per_kg : ℚ

/-- Input of `updateRawFeedMaterial` (optional fields are partial updates). -/
structure UpdateRawFeedMaterialInput where
  id : Nat
  name : Option String
  price_per_kg : Option ℚ

/-- Input of `createFinishedFeed`. -/
structure CreateFinishedFeedInput where
  name : String

/-- Input of `updateFinishedFeed`. -/
structure UpdateFinishedFeedInput where
  id : Nat
  name : Option String

/-- Input of `createFeedComposition`. -/
structure CreateFeedCompositionInput where
  finished_feed_id : Nat
  raw_material_id : Nat
  percentage : ℚ

/-- Validation applied to `createFeedCompositionInput` at the API boundary
(`createFeedCompositionInputSchema`: percentage `z.number().min(0).max(100)`). -/
def createFeedCompositionInputValid (i : CreateFeedCompositionInput) : Prop :=
  0 ≤ i.percentage ∧ i.percentage ≤ 100

instance (i : CreateFeedCompositionInput) :
    Decidable (createFeedCompositionInputValid i) := by
  unfold createFeedCompositionInputValid; infer_instance

/-- Input of `updateFeedComposition`. -/
structure UpdateFeedCompositionInput where
  id : Nat
  percentage : Option ℚ

/-- Input of `createChickenFlock`. -/
structure CreateChickenFlockInput where
  strain : String
  entry_date : Nat
  initial_count : Nat
  age_upon_entry_days : Nat

/-- Input of `updateChickenFlock`. -/
structure UpdateChickenFlockInput where
  id : Nat
  strain : Option String
  entry_date : Option Nat
  initial_count : Option Nat
  age_upon_entry_days : Option Nat
  current_count : Option Nat

/-- Input of `createFeedConsumption`. -/
structure CreateFeedConsumptionInput where
  flock_id : Nat
  finished_feed_id : Nat
  consumption_date : Nat
  quantity_kg : ℚ

/-- Input of `updateFeedConsumption`. -/
structure UpdateFeedConsumptionInput where
  id : Nat
  flock_id : Option Nat
  finished_feed_id : Option Nat
  consumption_date : Option Nat
  quantity_kg : Option ℚ

/-- Input of `createEggProduction`. -/
structure CreateEggProductionInput where
  flock_id : Nat
  production_date : Nat
  quality : EggQuality
  quantity : Nat

/-- Input of `updateEggProduction`. -/
structure UpdateEggProductionInput where
  id : Nat
  flock_id : Option Nat
  production_date : Option Nat
  quality : Option EggQuality
  quantity : Option Nat

/-- Input of `createEggSales`. -/
structure CreateEggSalesInput where
  sale_date : Nat
  quality : EggQuality
  quantity : Nat
  price_per_egg : ℚ

/-- Input of `updateEggSales`. -/
structure UpdateEggSalesInput where
  id : Nat
  sale_date : Option Nat
  quality : Option EggQuality
  quantity : Option Nat
  price_per_egg : Option ℚ

/-- Input of `createOtherExpenses`. -/
structure CreateOtherExpensesInput where
  expense_date : Nat
  expense_type : ExpenseType
  description : String
  amount : ℚ

/-- Input of `updateOtherExpenses`. -/
structure UpdateOtherExpensesInput where
  id : Nat
  expense_date : Option Nat
  expense_type : Option ExpenseType
  description : Option String
  amount : Option ℚ

/-- Input of `generateProfitReport`. -/
structure ProfitReportInput where
  period_start : Nat
  period_end : Nat

/-- Result of `generateProfitReport`. -/
structure ProfitReport where
  total_revenue : ℚ
  total_feed_cost : ℚ
  total_other_expenses : ℚ
  total_profit : ℚ
  period_start : Nat
  period_end : Nat
deriving DecidableEq

/-- The `gte(start) && lte(end)` date filter shared by every date-range query. -/
def inRange (s e d : Nat) : Bool :=
  decide (s ≤ d) && decide (d ≤ e)

/-! ## Raw feed material handlers (real implementation shipped with the repo) -/

/-- Handler `createRawFeedMaterial`: inserts a row and returns it. -/
def createRawFeedMaterial (i : CreateRawFeedMaterialInput) (db : DB) :
    Except String (RawMaterial × DB) :=
  let m : RawMaterial :=
    { id := db.nextRawMaterialId, name := i.name, price_per_kg := i.price_per_kg }
  .ok (m, { db with rawMaterials := db.rawMaterials ++ [m],
                    nextRawMaterialId := db.nextRawMaterialId + 1 })

/-- Handler `updateRawFeedMaterial`: partial update by id; the source issues the
update and throws when zero rows came back, which (ids being unique) is the
same as the row lookup modelled here.  Note that it does NOT recompute any
finished feed's `cost_per_kg`. -/
def updateRawFeedMaterial (i : UpdateRawFeedMaterialInput) (db : DB) :
    Except String (RawMaterial × DB) :=
  match db.rawMaterials.find? (fun m => m.id == i.id) with
  | none => .error ("Raw feed material with id " ++ toString i.id ++ " not found")
  | some m =>
      let m2 : RawMaterial :=
        { m with name := i.name.getD m.name,
                 price_per_kg := i.price_per_kg.getD m.price_per_kg }
      .ok (m2, { db with rawMaterials :=
                   db.rawMaterials.map (fun r => if r.id == i.id then m2 else r) })

/-- Handler `deleteRawFeedMaterial`. -/
def deleteRawFeedMaterial (id : Nat) (db : DB) : Except String (Unit × DB) :=
  match db.rawMaterials.find? (fun m => m.id == id) with
  | none => .error ("Raw feed material with id " ++ toString id ++ " not found")
  | some _ =>
      .ok ((), { db with rawMaterials :=
                   db.rawMaterials.filter (fun r => !(r.id == id)) })

/-! ## Finished feed handlers -/

/-- Handler `createFinishedFeed`: inserts with an initial `cost_per_kg` of 0. -/
def createFinishedFeed (i : CreateFinishedFeedInput) (db : DB) :
    Except String (FinishedFeed × DB) :=
  let f : FinishedFeed := { id := db.nextFinishedFeedId, name := i.name, cost_per_kg := 0 }
  .ok (f, { db with finishedFeeds := db.finishedFeeds ++ [f],
                    nextFinishedFeedId := db.nextFinishedFeedId + 1 })

/-- Handler `updateFinishedFeed`: only the name can change. -/
def updateFinishedFeed (i : UpdateFinishedFeedInput) (db : DB) :
    Except String (FinishedFeed × DB) :=
  match db.finishedFeeds.find? (fun f => f.id == i.id) with
  | none => .error ("Finished feed with ID " ++ toString i.id ++ " not found")
  | some f =>
      let f2 : FinishedFeed := { f with name := i.name.getD f.name }
      .ok (f2, { db with finishedFeeds :=
                   db.finishedFeeds.map (fun r => if r.id == i.id then f2 else r) })

/-- Handler `deleteFinishedFeed`. -/
def deleteFinishedFeed (id : Nat) (db : DB) : Except String (Unit × DB) :=
  match db.finishedFeeds.find? (fun f => f.id == id) with
  | none => .error ("Finished feed with ID " ++ toString id ++ " not found")
  | some _ =>
      .ok ((), { db with finishedFeeds :=
                   db.finishedFeeds.filter (fun r => !(r.id == id)) })

/-! ## Feed composition handlers and the feed-cost recomputation -/

/-- The weighted-sum query inside `updateFinishedFeedCost`: all compositions of
the feed inner-joined to their raw material, accumulating
`(percentage / 100) * price_per_kg`.  A composition whose material row is
missing is dropped by the inner join, hence the `none` branch. -/
def feedCostOf (db : DB) (finishedFeedId : Nat) : ℚ :=
  (db.feedCompositions.filter (fun c => c.finished_feed_id == finishedFeedId)).foldl
    (fun totalCost c =>
      match db.rawMaterials.find? (fun m => m.id == c.raw_material_id) with
      | some m => totalCost + c.percentage / 100 * m.price_per_kg
      | none => totalCost) 0

/-- Helper `updateFinishedFeedCost`: persists the recomputed weighted cost onto
the finished feed's row. -/
def updateFinishedFeedCost (finishedFeedId : Nat) (db : DB) : DB :=
  { db with finishedFeeds :=
      db.finishedFeeds.map (fun f =>
        if f.id == finishedFeedId then { f with cost_per_kg := feedCostOf db finishedFeedId }
        else f) }

/-- Handler `createFeedComposition`: checks the finished feed, the raw material
and the absence of a duplicate (feed, material) pair, inserts, then recomputes
the feed's cost. -/
def createFeedComposition (i : CreateFeedCompositionInput) (db : DB) :
    Except String (FeedComposition × DB) :=
  match db.finishedFeeds.find? (fun f => f.id == i.finished_feed_id) with
  | none => .error ("Finished feed with id " ++ toString i.finished_feed_id ++ " not found")
  | some _ =>
  match db.rawMaterials.find? (fun m => m.id == i.raw_material_id) with
  | none => .error ("Raw material with id " ++ toString i.raw_material_id ++ " not found")
  | some _ =>
  if db.feedCompositions.any (fun c =>
      c.finished_feed_id == i.finished_feed_id && c.raw_material_id == i.raw_material_id) then
    .error ("Composition already exists for finished feed " ++ toString i.finished_feed_id ++
      " and raw material " ++ toString i.raw_material_id)
  else
    let c : FeedComposition :=
      { id := db.nextCompositionId, finished_feed_id := i.finished_feed_id,
        raw_material_id := i.raw_material_id, percentage := i.percentage }
    let db1 : DB := { db with feedCompositions := db.feedCompositions ++ [c],
                              nextCompositionId := db.nextCompositionId + 1 }
    .ok (c, updateFinishedFeedCost i.finished_feed_id db1)

/-- Handler `updateFeedComposition`: only the percentage can change; afterwards
the owning feed's cost is recomputed. -/
def updateFeedComposition (i : UpdateFeedCompositionInput) (db : DB) :
    Except String (FeedComposition × DB) :=
  match db.feedCompositions.find? (fun c => c.id == i.id) with
  | none => .error ("Feed composition with id " ++ toString i.id ++ " not found")
  | some c =>
      let c2 : FeedComposition := { c with percentage := i.percentage.getD c.percentage }
      let db1 : DB := { db with feedCompositions :=
                          db.feedCompositions.map (fun r => if r.id == i.id then c2 else r) }
      .ok (c2, updateFinishedFeedCost c2.finished_feed_id db1)

/-- Handler `deleteFeedComposition`: removes the composition, then recomputes
the owning feed's cost. -/
def deleteFeedComposition (id : Nat) (db : DB) : Except String (Unit × DB) :=
  match db.feedCompositions.find? (fun c => c.id == id) with
  | none => .error ("Feed composition with id " ++ toString id ++ " not found")
  | some c =>
      let db1 : DB := { db with feedCompositions :=
                          db.feedCompositions.filter (fun r => !(r.id == id)) }
      .ok ((), updateFinishedFeedCost c.finished_feed_id db1)

/-! ## Chicken flock handlers -/

/-- Handler `createChickenFlock`: `current_count` starts equal to
`initial_count`. -/
def createChickenFlock (i : CreateChickenFlockInput) (db : DB) :
    Except String (ChickenFlock × DB) :=
  let f : ChickenFlock :=
    { id := db.nextFlockId, strain := i.strain, entry_date := i.entry_date,
      initial_count := i.initial_count, age_upon_entry_days := i.age_upon_entry_days,
      current_count := i.initial_count }
  .ok (f, { db with chickenFlocks := db.chickenFlocks ++ [f],
                    nextFlockId := db.nextFlockId + 1 })

/-- Handler `updateChickenFlock`. -/
def updateChickenFlock (i : UpdateChickenFlockInput) (db : DB) :
    Except String (ChickenFlock × DB) :=
  match db.chickenFlocks.find? (fun f => f.id == i.id) with
  | none => .error ("Chicken flock with ID " ++ toString i.id ++ " not found")
  | some f =>
      let f2 : ChickenFlock :=
        { f with strain := i.strain.getD f.strain,
                 entry_date := i.entry_date.getD f.entry_date,
                 initial_count := i.initial_count.getD f.initial_count,
                 age_upon_entry_days := i.age_upon_entry_days.getD f.age_upon_entry_days,
                 current_count := i.current_count.getD f.current_count }
      .ok (f2, { db with chickenFlocks :=
                   db.chickenFlocks.map (fun r => if r.id == i.id then f2 else r) })

/-- Handler `deleteChickenFlock`: deletes only from the flocks table. -/
def deleteChickenFlock (id : Nat) (db : DB) : Except String (Unit × DB) :=
  match db.chickenFlocks.find? (fun f => f.id == id) with
  | none => .error ("Chicken flock with ID " ++ toString id ++ " not found")
  | some _ =>
      .ok ((), { db with chickenFlocks :=
                   db.chickenFlocks.filter (fun r => !(r.id == id)) })

/-! ## Feed consumption handlers -/

/-- Handler `createFeedConsumption`: verifies the flock, fetches the finished
feed, and persists `cost = quantity_kg * feed.cost_per_kg`. -/
def createFeedConsumption (i : CreateFeedConsumptionInput) (db : DB) :
    Except String (FeedConsumption × DB) :=
  match db.chickenFlocks.find? (fun fl => fl.id == i.flock_id) with
  | none => .error ("Flock with ID " ++ toString i.flock_id ++ " not found")
  | some _ =>
  match db.finishedFeeds.find? (fun f => f.id == i.finished_feed_id) with
  | none => .error ("Finished feed with ID " ++ toString i.finished_feed_id ++ " not found")
  | some feed =>
      let c : FeedConsumption :=
        { id := db.nextConsumptionId, flock_id := i.flock_id,
          finished_feed_id := i.finished_feed_id, consumption_date := i.consumption_date,
          quantity_kg := i.quantity_kg, cost := i.quantity_kg * feed.cost_per_kg }
      .ok (c, { db with feedConsumptions := db.feedConsumptions ++ [c],
                        nextConsumptionId := db.nextConsumptionId + 1 })

/-- The write phase of `updateFeedConsumption`: builds the updated row,
recomputing the cost from the then-current feed cost exactly when quantity or
feed is part of the update. -/
def updateFeedConsumptionWrite (i : UpdateFeedConsumptionInput) (db : DB)
    (existing : FeedConsumption) : Except String (FeedConsumption × DB) :=
  if i.quantity_kg.isSome || i.finished_feed_id.isSome then
    let feedId := i.finished_feed_id.getD existing.finished_feed_id
    let quantity := i.quantity_kg.getD existing.quantity_kg
    match db.finishedFeeds.find? (fun f => f.id == feedId) with
    | none => .error ("Finished feed with ID " ++ toString feedId ++ " not found")
    | some feed =>
        let c2 : FeedConsumption :=
          { existing with
              flock_id := i.flock_id.getD existing.flock_id,
              finished_feed_id := feedId,
              consumption_date := i.consumption_date.getD existing.consumption_date,
              quantity_kg := quantity,
              cost := quantity * feed.cost_per_kg }
        .ok (c2, { db with feedConsumptions :=
                     db.feedConsumptions.map (fun r => if r.id == i.id then c2 else r) })
  else
    let c2 : FeedConsumption :=
      { existing with
          flock_id := i.flock_id.getD existing.flock_id,
          consumption_date := i.consumption_date.getD existing.consumption_date }
    .ok (c2, { db with feedConsumptions :=
                 db.feedConsumptions.map (fun r => if r.id == i.id then c2 else r) })

/-- Continuation of `updateFeedConsumption` after the optional flock check: the
optional finished-feed check, then the write. -/
def updateFeedConsumptionRest (i : UpdateFeedConsumptionInput) (db : DB)
    (existing : FeedConsumption) : Except String (FeedConsumption × DB) :=
  match i.finished_feed_id with
  | some gid =>
      if (db.finishedFeeds.find? (fun f => f.id == gid)).isNone then
        .error ("Finished feed with ID " ++ toString gid ++ " not found")
      else updateFeedConsumptionWrite i db existing
  | none => updateFeedConsumptionWrite i db existing

/-- Handler `updateFeedConsumption`: after the existence and foreign-key
checks, the cost is recomputed from the then-current feed cost exactly when
`quantity_kg` or `finished_feed_id` is part of the update.  The source reads
`finishedFeed[0]` without a length check on the recompute path when the feed id
is taken from the existing row; a missing row there (impossible under the
database's foreign-key constraint) is modelled as an error. -/
def updateFeedConsumption (i : UpdateFeedConsumptionInput) (db : DB) :
    Except String (FeedConsumption × DB) :=
  match db.feedConsumptions.find? (fun c => c.id == i.id) with
  | none => .error ("Feed consumption with ID " ++ toString i.id ++ " not found")
  | some existing =>
  match i.flock_id with
  | some fid =>
      if (db.chickenFlocks.find? (fun fl => fl.id == fid)).isNone then
        .error ("Flock with ID " ++ toString fid ++ " not found")
      else updateFeedConsumptionRest i db existing
  | none => updateFeedConsumptionRest i db existing

/-- Handler `deleteFeedConsumption`. -/
def deleteFeedConsumption (id : Nat) (db : DB) : Except String (Unit × DB) :=
  match db.feedConsumptions.find? (fun c => c.id == id) with
  | none => .error ("Feed consumption with ID " ++ toString id ++ " not found")
  | some _ =>
      .ok ((), { db with feedConsumptions :=
                   db.feedConsumptions.filter (fun r => !(r.id == id)) })

/-- Handler `getTotalFeedCostByDateRange` (feed consumption module): SQL `SUM`
over the inclusive date filter, with `null` (no rows) mapped to 0. -/
def getTotalFeedCostByDateRange (startDate endDate : Nat) (db : DB) : ℚ :=
  (db.feedConsumptions.filter (fun c => inRange startDate endDate c.consumption_date)).foldl
    (fun acc c => acc + c.cost) 0

/-! ## Egg production handlers -/

/-- Handler `createEggProduction`; note its messages say "does not exist". -/
def createEggProduction (i : CreateEggProductionInput) (db : DB) :
    Except String (EggProduction × DB) :=
  match db.chickenFlocks.find? (fun fl => fl.id == i.flock_id) with
  | none => .error ("Flock with id " ++ toString i.flock_id ++ " does not exist")
  | some _ =>
      let p : EggProduction :=
        { id := db.nextProductionId, flock_id := i.flock_id,
          production_date := i.production_date, quality := i.quality,
          quantity := i.quantity }
      .ok (p, { db with eggProductions := db.eggProductions ++ [p],
                        nextProductionId := db.nextProductionId + 1 })

/-- The write of `updateEggProduction` after all checks passed. -/
def updateEggProductionWrite (i : UpdateEggProductionInput) (db : DB)
    (p : EggProduction) : Except String (EggProduction × DB) :=
  let p2 : EggProduction :=
    { p with flock_id := i.flock_id.getD p.flock_id,
             production_date := i.production_date.getD p.production_date,
             quality := i.quality.getD p.quality,
             quantity := i.quantity.getD p.quantity }
  .ok (p2, { db with eggProductions :=
               db.eggProductions.map (fun r => if r.id == i.id then p2 else r) })

/-- Handler `updateEggProduction`. -/
def updateEggProduction (i : UpdateEggProductionInput) (db : DB) :
    Except String (EggProduction × DB) :=
  match db.eggProductions.find? (fun p => p.id == i.id) with
  | none => .error ("Egg production record with id " ++ toString i.id ++ " does not exist")
  | some p =>
  match i.flock_id with
  | some fid =>
      if (db.chickenFlocks.find? (fun fl => fl.id == fid)).isNone then
        .error ("Flock with id " ++ toString fid ++ " does not exist")
      else updateEggProductionWrite i db p
  | none => updateEggProductionWrite i db p

/-- Handler `deleteEggProduction`; its message also says "does not exist". -/
def deleteEggProduction (id : Nat) (db : DB) : Except String (Unit × DB) :=
  match db.eggProductions.find? (fun p => p.id == id) with
  | none => .error ("Egg production record with id " ++ toString id ++ " does not exist")
  | some _ =>
      .ok ((), { db with eggProductions :=
                   db.eggProductions.filter (fun r => !(r.id == id)) })

/-- Handler `getEggProductionsByDateRange` (the `orderBy desc` of the source is
not modelled; the claims about ranges are order-insensitive). -/
def getEggProductionsByDateRange (startDate endDate : Nat) (db : DB) :
    List EggProduction :=
  db.eggProductions.filter (fun p => inRange startDate endDate p.production_date)

/-! ## Egg sales handlers -/

/-- Handler `createEggSales`: stores `total_price = quantity * price_per_egg`. -/
def createEggSales (i : CreateEggSalesInput) (db : DB) :
    Except String (EggSale × DB) :=
  let s : EggSale :=
    { id := db.nextSaleId, sale_date := i.sale_date, quality := i.quality,
      quantity := i.quantity, price_per_egg := i.price_per_egg,
      total_price := (i.quantity : ℚ) * i.price_per_egg }
  .ok (s, { db with eggSales := db.eggSales ++ [s], nextSaleId := db.nextSaleId + 1 })

/-- Handler `updateEggSales`: recomputes `total_price` from the effective (new
or retained) quantity and price exactly when the update touches either field.
The source reaches "Egg sale record not found" either from the recalculation
fetch or from the zero-row update result; both collapse to the single lookup
modelled here. -/
def updateEggSales (i : UpdateEggSalesInput) (db : DB) :
    Except String (EggSale × DB) :=
  match db.eggSales.find? (fun s => s.id == i.id) with
  | none => .error "Egg sale record not found"
  | some current =>
      let newQuantity := i.quantity.getD current.quantity
      let newPricePerEgg := i.price_per_egg.getD current.price_per_egg
      let s2 : EggSale :=
        { current with
            sale_date := i.sale_date.getD current.sale_date,
            quality := i.quality.getD current.quality,
            quantity := newQuantity,
            price_per_egg := newPricePerEgg,
            total_price :=
              if i.quantity.isSome || i.price_per_egg.isSome then
                (newQuantity : ℚ) * newPricePerEgg
              else current.total_price }
      .ok (s2, { db with eggSales :=
                   db.eggSales.map (fun r => if r.id == i.id then s2 else r) })

/-- Handler `deleteEggSales`. -/
def deleteEggSales (id : Nat) (db : DB) : Except String (Unit × DB) :=
  match db.eggSales.find? (fun s => s.id == id) with
  | none => .error "Egg sale record not found"
  | some _ =>
      .ok ((), { db with eggSales := db.eggSales.filter (fun r => !(r.id == id)) })

/-- Handler `getTotalRevenueByDateRange` (egg sales module). -/
def getTotalRevenueByDateRange (startDate endDate : Nat) (db : DB) : ℚ :=
  (db.eggSales.filter (fun s => inRange startDate endDate s.sale_date)).foldl
    (fun acc s => acc + s.total_price) 0

/-- Handler `getEggSalesByDateRange`. -/
def getEggSalesByDateRange (startDate endDate : Nat) (db : DB) : List EggSale :=
  db.eggSales.filter (fun s => inRange startDate endDate s.sale_date)

/-! ## Other expense handlers -/

/-- Handler `createOtherExpenses`. -/
def createOtherExpenses (i : CreateOtherExpensesInput) (db : DB) :
    Except String (OtherExpense × DB) :=
  let e : OtherExpense :=
    { id := db.nextExpenseId, expense_date := i.expense_date,
      expense_type := i.expense_type, description := i.description,
      amount := i.amount }
  .ok (e, { db with otherExpenses := db.otherExpenses ++ [e],
                    nextExpenseId := db.nextExpenseId + 1 })

/-- Handler `updateOtherExpenses`. -/
def updateOtherExpenses (i : UpdateOtherExpensesInput) (db : DB) :
    Except String (OtherExpense × DB) :=
  match db.otherExpenses.find? (fun e => e.id == i.id) with
  | none => .error "Other expense not found"
  | some e =>
      let e2 : OtherExpense :=
        { e with expense_date := i.expense_date.getD e.expense_date,
                 expense_type := i.expense_type.getD e.expense_type,
                 description := i.description.getD e.description,
                 amount := i.amount.getD e.amount }
      .ok (e2, { db with otherExpenses :=
                   db.otherExpenses.map (fun r => if r.id == i.id then e2 else r) })

/-- Handler `deleteOtherExpenses`. -/
def deleteOtherExpenses (id : Nat) (db : DB) : Except String (Unit × DB) :=
  match db.otherExpenses.find? (fun e => e.id == id) with
  | none => .error "Other expense not found"
  | some _ =>
      .ok ((), { db with otherExpenses :=
                   db.otherExpenses.filter (fun r => !(r.id == id)) })

/-- Handler `getTotalExpensesByDateRange`. -/
def getTotalExpensesByDateRange (startDate endDate : Nat) (db : DB) : ℚ :=
  (db.otherExpenses.filter (fun e => inRange startDate endDate e.expense_date)).foldl
    (fun acc e => acc + e.amount) 0

/-- Handler `getOtherExpensesByDateRange` (again without the `orderBy desc`). -/
def getOtherExpensesByDateRange (startDate endDate : Nat) (db : DB) :
    List OtherExpense :=
  db.otherExpenses.filter (fun e => inRange startDate endDate e.expense_date)

/-! ## Profit report handlers (`profit_reports.ts`) -/

/-- Handler `calculateTotalRevenue`: `SUM(total_price)` over the inclusive date
range on egg sales, `null` mapped to 0. -/
def calculateTotalRevenue (startDate endDate : Nat) (db : DB) : ℚ :=
  (db.eggSales.filter (fun s => inRange startDate endDate s.sale_date)).foldl
    (fun acc s => acc + s.total_price) 0

/-- Handler `calculateTotalFeedCost`: `SUM(cost)` over feed consumptions in the
range. -/
def calculateTotalFeedCost (startDate endDate : Nat) (db : DB) : ℚ :=
  (db.feedConsumptions.filter (fun c => inRange startDate endDate c.consumption_date)).foldl
    (fun acc c => acc + c.cost) 0

/-- Handler `calculateTotalOtherExpenses`: `SUM(amount)` over expenses in the
range. -/
def calculateTotalOtherExpenses (startDate endDate : Nat) (db : DB) : ℚ :=
  (db.otherExpenses.filter (fun e => inRange startDate endDate e.expense_date)).foldl
    (fun acc e => acc + e.amount) 0

/-- Handler `generateProfitReport`: the three period sums, their difference as
profit, and the input period echoed back. -/
def generateProfitReport (i : ProfitReportInput) (db : DB) : ProfitReport :=
  let totalRevenue := calculateTotalRevenue i.period_start i.period_end db
  let totalFeedCost := calculateTotalFeedCost i.period_start i.period_end db
  let totalOtherExpenses := calculateTotalOtherExpenses i.period_start i.period_end db
  { total_revenue := totalRevenue,
    total_feed_cost := totalFeedCost,
    total_other_expenses := totalOtherExpenses,
    total_profit := totalRevenue - totalFeedCost - totalOtherExpenses,
    period_start := i.period_start,
    period_end := i.period_end }

/-! ## Generic helpers for the proofs -/

/-- Project the returned row out of a successful handler call (with an explicit
fallback so the projection is total). -/
def okRowOr {α : Type} (dflt : α) : Except String (α × DB) → α
  | .ok (a, _) => a
  | .error _ => dflt

/-- Project the post-state out of a successful handler call. -/
def okStateOr {α : Type} (dflt : DB) : Except String (α × DB) → DB
  | .ok (_, db) => db
  | .error _ => dflt

/-- The recomputed-cost invariant of the spec: every finished-feed row with the
given id carries exactly the weighted composition sum. -/
def costOk (db : DB) (fid : Nat) : Prop :=
  ∀ f ∈ db.finishedFeeds, f.id = fid → f.cost_per_kg = feedCostOf db fid

instance (db : DB) (fid : Nat) : Decidable (costOk db fid) := by
  unfold costOk; infer_instance

/-! ## The flock/consumption/production/sale/expense operations as one type -/

/-- All mutating operations of the system that touch neither the feeds, the
compositions nor the raw materials: the flock, feed-consumption,
egg-production, egg-sale and other-expense handlers. -/
inductive NonFeedOp
  | createFlock (i : CreateChickenFlockInput)
  | updateFlock (i : UpdateChickenFlockInput)
  | deleteFlock (id : Nat)
  | createConsumption (i : CreateFeedConsumptionInput)
  | updateConsumption (i : UpdateFeedConsumptionInput)
  | deleteConsumption (id : Nat)
  | createProduction (i : CreateEggProductionInput)
  | updateProduction (i : UpdateEggProductionInput)
  | deleteProduction (id : Nat)
  | createSale (i : CreateEggSalesInput)
  | updateSale (i : UpdateEggSalesInput)
  | deleteSale (id : Nat)
  | createExpense (i : CreateOtherExpensesInput)
  | updateExpense (i : UpdateOtherExpensesInput)
  | deleteExpense (id : Nat)

/-- Forget the returned row of a handler, keeping only the state transition. -/
def discardRow {α : Type} : Except String (α × DB) → Except String DB
  | .ok (_, db) => .ok db
  | .error e => .error e

/-- Run one of the operations of `NonFeedOp`. -/
def applyNonFeedOp : NonFeedOp → DB → Except String DB
  | .createFlock i, db => discardRow (createChickenFlock i db)
  | .updateFlock i, db => discardRow (updateChickenFlock i db)
  | .deleteFlock id, db => discardRow (deleteChickenFlock id db)
  | .createConsumption i, db => discardRow (createFeedConsumption i db)
  | .updateConsumption i, db => discardRow (updateFeedConsumption i db)
  | .deleteConsumption id, db => discardRow (deleteFeedConsumption id db)
  | .createProduction i, db => discardRow (createEggProduction i db)
  | .updateProduction i, db => discardRow (updateEggProduction i db)
  | .deleteProduction id, db => discardRow (deleteEggProduction id db)
  | .createSale i, db => discardRow (createEggSales i db)
  | .updateSale i, db => discardRow (updateEggSales i db)
  | .deleteSale id, db => discardRow (deleteEggSales id db)
  | .createExpense i, db => discardRow (createOtherExpenses i db)
  | .updateExpense i, db => discardRow (updateOtherExpenses i db)
  | .deleteExpense id, db => discardRow (deleteOtherExpenses id db)


/-- Project the post-state out of a row-less result. -/
def okDBOr (dflt : DB) : Except String DB → DB
  | .ok db => db
  | .error _ => dflt

/-! ## Concrete stores used by witnesses and counterexamples -/

/-- A small populated store: one row in every table.  The finished feed's
stored cost (3) is deliberately independent of its composition data. -/
def sampleDb : DB :=
  { rawMaterials := [{ id := 1, name := "corn", price_per_kg := 2 }],
    finishedFeeds := [{ id := 1, name := "mix", cost_per_kg := 3 }],
    feedCompositions :=
      [{ id := 1, finished_feed_id := 1, raw_material_id := 1, percentage := 50 }],
    chickenFlocks :=
      [{ id := 1, strain := "leghorn", entry_date := 10, initial_count := 100,
         age_upon_entry_days := 0, current_count := 100 }],
    feedConsumptions :=
      [{ id := 1, flock_id := 1, finished_feed_id := 1, consumption_date := 12,
         quantity_kg := 2, cost := 6 }],
    eggProductions :=
      [{ id := 1, flock_id := 1, production_date := 12, quality := .A, quantity := 30 }],
    eggSales :=
      [{ id := 1, sale_date := 12, quality := .A, quantity := 3, price_per_egg := 2,
         total_price := 6 }],
    otherExpenses :=
      [{ id := 1, expense_date := 12, expense_type := .labor, description := "wages",
         amount := 5 }],
    nextRawMaterialId := 2, nextFinishedFeedId := 2, nextCompositionId := 2,
    nextFlockId := 2, nextConsumptionId := 2, nextProductionId := 2,
    nextSaleId := 2, nextExpenseId := 2 }

/-- Store with one raw material (price 2) and one finished feed, no
compositions yet. -/
def staleDb0 : DB :=
  { DB.empty with
      rawMaterials := [{ id := 1, name := "corn", price_per_kg := 2 }],
      finishedFeeds := [{ id := 1, name := "mix", cost_per_kg := 0 }],
      nextRawMaterialId := 2, nextFinishedFeedId := 2 }

/-- `staleDb0` after a composition write (feed 1, material 1, 50 %): the feed
cost becomes 1. -/
def staleDb1 : DB :=
  okStateOr DB.empty
    (createFeedComposition
      { finished_feed_id := 1, raw_material_id := 1, percentage := 50 } staleDb0)

/-- `staleDb1` after `updateRawFeedMaterial` raises the material price to 4;
no feed-cost recompute happens. -/
def staleDb2 : DB :=
  okStateOr DB.empty
    (updateRawFeedMaterial { id := 1, name := none, price_per_kg := some 4 } staleDb1)

/-- Store built through the API: two raw materials (prices 2 and 3). -/
def overDb1 : DB :=
  okStateOr DB.empty (createRawFeedMaterial { name := "corn", price_per_kg := 2 } DB.empty)

def overDb2 : DB :=
  okStateOr DB.empty (createRawFeedMaterial { name := "soy", price_per_kg := 3 } overDb1)

def overDb3 : DB :=
  okStateOr DB.empty (createFinishedFeed { name := "mix" } overDb2)

/-- `overDb3` after a first 60 % composition for feed 1. -/
def overDb4 : DB :=
  okStateOr DB.empty
    (createFeedComposition
      { finished_feed_id := 1, raw_material_id := 1, percentage := 60 } overDb3)

/-- `overDb4` after a second 60 % composition for feed 1: the two percentages
sum to 120. -/
def overDb5 : DB :=
  okStateOr DB.empty
    (createFeedComposition
      { finished_feed_id := 1, raw_material_id := 2, percentage := 60 } overDb4)

/-! ## Default rows and fixed inputs used by witnesses -/

/-- Fallback egg-sale row for `okRowOr`. -/
def dfltSale : EggSale :=
  { id := 0, sale_date := 0, quality := .A, quantity := 0, price_per_egg := 0,
    total_price := 0 }

/-- Fallback feed-consumption row for `okRowOr`. -/
def dfltConsumption : FeedConsumption :=
  { id := 0, flock_id := 0, finished_feed_id := 0, consumption_date := 0,
    quantity_kg := 0, cost := 0 }

/-- Fallback feed-composition row for `okRowOr`. -/
def dfltComposition : FeedComposition :=
  { id := 0, finished_feed_id := 0, raw_material_id := 0, percentage := 0 }

/-- Update input touching only the quantity of sale 1. -/
def saleUpdIn : UpdateEggSalesInput :=
  { id := 1, sale_date := none, quality := none, quantity := some 4,
    price_per_egg := none }

/-- Feed-consumption create input against flock 1 and feed 1. -/
def consCreateIn : CreateFeedConsumptionInput :=
  { flock_id := 1, finished_feed_id := 1, consumption_date := 15, quantity_kg := 5 }

/-- Raw-material update input with the unused id 999. -/
def u999RM : UpdateRawFeedMaterialInput :=
  { id := 999, name := none, price_per_kg := none }

/-- Feed-consumption create input referencing the nonexistent flock 999. -/
def consBadFlockIn : CreateFeedConsumptionInput :=
  { flock_id := 999, finished_feed_id := 1, consumption_date := 1, quantity_kg := 1 }

/-- No two composition rows share the same (finished feed, raw material)
pair. -/
def pairsUnique (db : DB) : Prop :=
  db.feedCompositions.Pairwise (fun a b =>
    a.finished_feed_id ≠ b.finished_feed_id ∨ a.raw_material_id ≠ b.raw_material_id)

/-- No two composition rows share a row id. -/
def compIdsUnique (db : DB) : Prop :=
  db.feedCompositions.Pairwise (fun a b => a.id ≠ b.id)

/-- Composition create input duplicating the sample store's (feed 1,
material 1) pair. -/
def dupCompIn : CreateFeedCompositionInput :=
  { finished_feed_id := 1, raw_material_id := 1, percentage := 40 }

theorem charsHaveSub_append (xs ys p : List Char)
    (h : charsHaveSub ys p = true) : charsHaveSub (xs ++ ys) p = true := by
  induction xs with
  | nil => simpa using h
  | cons x xs ih => simp [charsHaveSub, ih]

theorem strHasSub_append (a b pat : String) (h : strHasSub b pat = true) :
    strHasSub (a ++ b) pat = true := by
  unfold strHasSub at h ⊢
  rw [String.data_append]
  exact charsHaveSub_append _ _ _ h

theorem charsLead_append (p xs ys : List Char) (h : charsLead p xs = true) :
    charsLead p (xs ++ ys) = true := by
  induction p generalizing xs with
  | nil => simp [charsLead]
  | cons a ps ih =>
      cases xs with
      | nil => simp [charsLead] at h
      | cons x xs =>
          simp only [charsLead, Bool.and_eq_true] at h ⊢
          exact ⟨h.1, ih xs h.2⟩

theorem charsHaveSub_nil_pat (ys : List Char) : charsHaveSub ys [] = true := by
  induction ys with
  | nil => rfl
  | cons y ys ih => simp [charsHaveSub, charsLead, ih]

theorem charsHaveSub_append_left (xs ys p : List Char)
    (h : charsHaveSub xs p = true) : charsHaveSub (xs ++ ys) p = true := by
  induction xs with
  | nil =>
      simp only [charsHaveSub] at h
      cases p with
      | nil => exact charsHaveSub_nil_pat ys
      | cons a ps => simp [charsLead] at h
  | cons x xs ih =>
      simp only [charsHaveSub, Bool.or_eq_true] at h ⊢
      rcases h with h | h
      · exact Or.inl (charsLead_append _ _ _ h)
      · exact Or.inr (ih h)

theorem strHasSub_append_left (a b pat : String) (h : strHasSub a pat = true) :
    strHasSub (a ++ b) pat = true := by
  unfold strHasSub at h ⊢
  rw [String.data_append]
  exact charsHaveSub_append_left _ _ _ h

theorem foldl_add_eq_sum {α : Type} (f : α → ℚ) (l : List α) (init : ℚ) :
    l.foldl (fun acc x => acc + f x) init = init + (l.map f).sum := by
  induction l generalizing init with
  | nil => simp
  | cons x xs ih => simp [ih, add_assoc]

/-- The weighted feed-cost query only reads the compositions and materials
tables. -/
theorem feedCostOf_congr (db db' : DB)
    (hc : db'.feedCompositions = db.feedCompositions)
    (hm : db'.rawMaterials = db.rawMaterials) (fid : Nat) :
    feedCostOf db' fid = feedCostOf db fid := by
  unfold feedCostOf
  rw [hc, hm]

/-- The cost invariant only reads the feeds, compositions and materials
tables. -/
theorem costOk_congr (db db' : DB)
    (hf : db'.finishedFeeds = db.finishedFeeds)
    (hc : db'.feedCompositions = db.feedCompositions)
    (hm : db'.rawMaterials = db.rawMaterials) (fid : Nat)
    (h : costOk db fid) : costOk db' fid := by
  intro f hfmem hfid
  rw [feedCostOf_congr db db' hc hm]
  exact h f (hf ▸ hfmem) hfid

/-! ## Frame lemmas: which tables each handler leaves untouched -/

theorem createChickenFlock_frame {i : CreateChickenFlockInput} {db : DB}
    {r : ChickenFlock} {db' : DB} (h : createChickenFlock i db = .ok (r, db')) :
    db'.rawMaterials = db.rawMaterials ∧ db'.finishedFeeds = db.finishedFeeds ∧
    db'.feedCompositions = db.feedCompositions ∧
    db'.feedConsumptions = db.feedConsumptions ∧
    db'.eggProductions = db.eggProductions ∧ db'.eggSales = db.eggSales ∧
    db'.otherExpenses = db.otherExpenses := by
  unfold createChickenFlock at h
  simp only [Except.ok.injEq, Prod.mk.injEq] at h
  obtain ⟨-, h⟩ := h
  subst h
  exact ⟨rfl, rfl, rfl, rfl, rfl, rfl, rfl⟩

theorem deleteChickenFlock_frame {id : Nat} {db : DB} {u : Unit} {db' : DB}
    (h : deleteChickenFlock id db = .ok (u, db')) :
    db'.rawMaterials = db.rawMaterials ∧ db'.finishedFeeds = db.finishedFeeds ∧
    db'.feedCompositions = db.feedCompositions ∧
    db'.feedConsumptions = db.feedConsumptions ∧
    db'.eggProductions = db.eggProductions ∧ db'.eggSales = db.eggSales ∧
    db'.otherExpenses = db.otherExpenses := by
  unfold deleteChickenFlock at h
  split at h
  · simp at h
  · simp only [Except.ok.injEq, Prod.mk.injEq] at h
    obtain ⟨-, h⟩ := h
    subst h
    exact ⟨rfl, rfl, rfl, rfl, rfl, rfl, rfl⟩

theorem updateChickenFlock_frame {i : UpdateChickenFlockInput} {db : DB}
    {r : ChickenFlock} {db' : DB} (h : updateChickenFlock i db = .ok (r, db')) :
    db'.rawMaterials = db.rawMaterials ∧ db'.finishedFeeds = db.finishedFeeds ∧
    db'.feedCompositions = db.feedCompositions ∧
    db'.feedConsumptions = db.feedConsumptions ∧
    db'.eggProductions = db.eggProductions ∧ db'.eggSales = db.eggSales ∧
    db'.otherExpenses = db.otherExpenses := by
  unfold updateChickenFlock at h
  split at h
  · simp at h
  · simp only [Except.ok.injEq, Prod.mk.injEq] at h
    obtain ⟨-, h⟩ := h
    subst h
    exact ⟨rfl, rfl, rfl, rfl, rfl, rfl, rfl⟩

theorem createRawFeedMaterial_frame {i : CreateRawFeedMaterialInput} {db : DB}
    {r : RawMaterial} {db' : DB} (h : createRawFeedMaterial i db = .ok (r, db')) :
    db'.finishedFeeds = db.finishedFeeds ∧
    db'.feedCompositions = db.feedCompositions ∧
    db'.chickenFlocks = db.chickenFlocks ∧
    db'.feedConsumptions = db.feedConsumptions ∧
    db'.eggProductions = db.eggProductions ∧ db'.eggSales = db.eggSales ∧
    db'.otherExpenses = db.otherExpenses := by
  unfold createRawFeedMaterial at h
  simp only [Except.ok.injEq, Prod.mk.injEq] at h
  obtain ⟨-, h⟩ := h
  subst h
  exact ⟨rfl, rfl, rfl, rfl, rfl, rfl, rfl⟩

theorem updateRawFeedMaterial_frame {i : UpdateRawFeedMaterialInput} {db : DB}
    {r : RawMaterial} {db' : DB} (h : updateRawFeedMaterial i db = .ok (r, db')) :
    db'.finishedFeeds = db.finishedFeeds ∧
    db'.feedCompositions = db.feedCompositions ∧
    db'.chickenFlocks = db.chickenFlocks ∧
    db'.feedConsumptions = db.feedConsumptions ∧
    db'.eggProductions = db.eggProductions ∧ db'.eggSales = db.eggSales ∧
    db'.otherExpenses = db.otherExpenses := by
  unfold updateRawFeedMaterial at h
  split at h
  · simp at h
  · simp only [Except.ok.injEq, Prod.mk.injEq] at h
    obtain ⟨-, h⟩ := h
    subst h
    exact ⟨rfl, rfl, rfl, rfl, rfl, rfl, rfl⟩

theorem deleteRawFeedMaterial_frame {id : Nat} {db : DB} {u : Unit} {db' : DB}
    (h : deleteRawFeedMaterial id db = .ok (u, db')) :
    db'.finishedFeeds = db.finishedFeeds ∧
    db'.feedCompositions = db.feedCompositions ∧
    db'.chickenFlocks = db.chickenFlocks ∧
    db'.feedConsumptions = db.feedConsumptions ∧
    db'.eggProductions = db.eggProductions ∧ db'.eggSales = db.eggSales ∧
    db'.otherExpenses = db.otherExpenses := by
  unfold deleteRawFeedMaterial at h
  split at h
  · simp at h
  · simp only [Except.ok.injEq, Prod.mk.injEq] at h
    obtain ⟨-, h⟩ := h
    subst h
    exact ⟨rfl, rfl, rfl, rfl, rfl, rfl, rfl⟩

theorem createFinishedFeed_frame {i : CreateFinishedFeedInput} {db : DB}
    {r : FinishedFeed} {db' : DB} (h : createFinishedFeed i db = .ok (r, db')) :
    db'.rawMaterials = db.rawMaterials ∧
    db'.feedCompositions = db.feedCompositions ∧
    db'.chickenFlocks = db.chickenFlocks ∧
    db'.feedConsumptions = db.feedConsumptions ∧
    db'.eggProductions = db.eggProductions ∧ db'.eggSales = db.eggSales ∧
    db'.otherExpenses = db.otherExpenses := by
  unfold createFinishedFeed at h
  simp only [Except.ok.injEq, Prod.mk.injEq] at h
  obtain ⟨-, h⟩ := h
  subst h
  exact ⟨rfl, rfl, rfl, rfl, rfl, rfl, rfl⟩

theorem updateFinishedFeed_frame {i : UpdateFinishedFeedInput} {db : DB}
    {r : FinishedFeed} {db' : DB} (h : updateFinishedFeed i db = .ok (r, db')) :
    db'.rawMaterials = db.rawMaterials ∧
    db'.feedCompositions = db.feedCompositions ∧
    db'.chickenFlocks = db.chickenFlocks ∧
    db'.feedConsumptions = db.feedConsumptions ∧
    db'.eggProductions = db.eggProductions ∧ db'.eggSales = db.eggSales ∧
    db'.otherExpenses = db.otherExpenses := by
  unfold updateFinishedFeed at h
  split at h
  · simp at h
  · simp only [Except.ok.injEq, Prod.mk.injEq] at h
    obtain ⟨-, h⟩ := h
    subst h
    exact ⟨rfl, rfl, rfl, rfl, rfl, rfl, rfl⟩

theorem deleteFinishedFeed_frame {id : Nat} {db : DB} {u : Unit} {db' : DB}
    (h : deleteFinishedFeed id db = .ok (u, db')) :
    db'.rawMaterials = db.rawMaterials ∧
    db'.feedCompositions = db.feedCompositions ∧
    db'.chickenFlocks = db.chickenFlocks ∧
    db'.feedConsumptions = db.feedConsumptions ∧
    db'.eggProductions = db.eggProductions ∧ db'.eggSales = db.eggSales ∧
    db'.otherExpenses = db.otherExpenses := by
  unfold deleteFinishedFeed at h
  split at h
  · simp at h
  · simp only [Except.ok.injEq, Prod.mk.injEq] at h
    obtain ⟨-, h⟩ := h
    subst h
    exact ⟨rfl, rfl, rfl, rfl, rfl, rfl, rfl⟩

theorem createFeedComposition_frame {i : CreateFeedCompositionInput} {db : DB}
    {r : FeedComposition} {db' : DB} (h : createFeedComposition i db = .ok (r, db')) :
    db'.rawMaterials = db.rawMaterials ∧
    db'.chickenFlocks = db.chickenFlocks ∧
    db'.feedConsumptions = db.feedConsumptions ∧
    db'.eggProductions = db.eggProductions ∧ db'.eggSales = db.eggSales ∧
    db'.otherExpenses = db.otherExpenses := by
  unfold createFeedComposition at h
  split at h
  · simp at h
  · split at h
    · simp at h
    · split at h
      · simp at h
      · simp only [Except.ok.injEq, Prod.mk.injEq] at h
        obtain ⟨-, h⟩ := h
        subst h
        exact ⟨rfl, rfl, rfl, rfl, rfl, rfl⟩

theorem updateFeedComposition_frame {i : UpdateFeedCompositionInput} {db : DB}
    {r : FeedComposition} {db' : DB} (h : updateFeedComposition i db = .ok (r, db')) :
    db'.rawMaterials = db.rawMaterials ∧
    db'.chickenFlocks = db.chickenFlocks ∧
    db'.feedConsumptions = db.feedConsumptions ∧
    db'.eggProductions = db.eggProductions ∧ db'.eggSales = db.eggSales ∧
    db'.otherExpenses = db.otherExpenses := by
  unfold updateFeedComposition at h
  split at h
  · simp at h
  · simp only [Except.ok.injEq, Prod.mk.injEq] at h
    obtain ⟨-, h⟩ := h
    subst h
    exact ⟨rfl, rfl, rfl, rfl, rfl, rfl⟩

theorem deleteFeedComposition_frame {id : Nat} {db : DB} {u : Unit} {db' : DB}
    (h : deleteFeedComposition id db = .ok (u, db')) :
    db'.rawMaterials = db.rawMaterials ∧
    db'.chickenFlocks = db.chickenFlocks ∧
    db'.feedConsumptions = db.feedConsumptions ∧
    db'.eggProductions = db.eggProductions ∧ db'.eggSales = db.eggSales ∧
    db'.otherExpenses = db.otherExpenses := by
  unfold deleteFeedComposition at h
  split at h
  · simp at h
  · simp only [Except.ok.injEq, Prod.mk.injEq] at h
    obtain ⟨-, h⟩ := h
    subst h
    exact ⟨rfl, rfl, rfl, rfl, rfl, rfl⟩

theorem createFeedConsumption_frame {i : CreateFeedConsumptionInput} {db : DB}
    {r : FeedConsumption} {db' : DB} (h : createFeedConsumption i db = .ok (r, db')) :
    db'.rawMaterials = db.rawMaterials ∧ db'.finishedFeeds = db.finishedFeeds ∧
    db'.feedCompositions = db.feedCompositions ∧
    db'.chickenFlocks = db.chickenFlocks ∧
    db'.eggProductions = db.eggProductions ∧ db'.eggSales = db.eggSales ∧
    db'.otherExpenses = db.otherExpenses := by
  unfold createFeedConsumption at h
  split at h
  · simp at h
  · split at h
    · simp at h
    · simp only [Except.ok.injEq, Prod.mk.injEq] at h
      obtain ⟨-, h⟩ := h
      subst h
      exact ⟨rfl, rfl, rfl, rfl, rfl, rfl, rfl⟩

theorem updateFeedConsumptionWrite_frame {i : UpdateFeedConsumptionInput}
    {db : DB} {ex : FeedConsumption} {r : FeedConsumption} {db' : DB}
    (h : updateFeedConsumptionWrite i db ex = .ok (r, db')) :
    db'.rawMaterials = db.rawMaterials ∧ db'.finishedFeeds = db.finishedFeeds ∧
    db'.feedCompositions = db.feedCompositions ∧
    db'.chickenFlocks = db.chickenFlocks ∧
    db'.eggProductions = db.eggProductions ∧ db'.eggSales = db.eggSales ∧
    db'.otherExpenses = db.otherExpenses := by
  unfold updateFeedConsumptionWrite at h
  split at h
  · dsimp only at h
    split at h
    · simp at h
    · simp only [Except.ok.injEq, Prod.mk.injEq] at h
      obtain ⟨-, h⟩ := h
      subst h
      exact ⟨rfl, rfl, rfl, rfl, rfl, rfl, rfl⟩
  · simp only [Except.ok.injEq, Prod.mk.injEq] at h
    obtain ⟨-, h⟩ := h
    subst h
    exact ⟨rfl, rfl, rfl, rfl, rfl, rfl, rfl⟩

theorem updateFeedConsumptionRest_frame {i : UpdateFeedConsumptionInput}
    {db : DB} {ex : FeedConsumption} {r : FeedConsumption} {db' : DB}
    (h : updateFeedConsumptionRest i db ex = .ok (r, db')) :
    db'.rawMaterials = db.rawMaterials ∧ db'.finishedFeeds = db.finishedFeeds ∧
    db'.feedCompositions = db.feedCompositions ∧
    db'.chickenFlocks = db.chickenFlocks ∧
    db'.eggProductions = db.eggProductions ∧ db'.eggSales = db.eggSales ∧
    db'.otherExpenses = db.otherExpenses := by
  unfold updateFeedConsumptionRest at h
  split at h
  · split at h
    · simp at h
    · exact updateFeedConsumptionWrite_frame h
  · exact updateFeedConsumptionWrite_frame h

theorem updateFeedConsumption_frame {i : UpdateFeedConsumptionInput} {db : DB}
    {r : FeedConsumption} {db' : DB} (h : updateFeedConsumption i db = .ok (r, db')) :
    db'.rawMaterials = db.rawMaterials ∧ db'.finishedFeeds = db.finishedFeeds ∧
    db'.feedCompositions = db.feedCompositions ∧
    db'.chickenFlocks = db.chickenFlocks ∧
    db'.eggProductions = db.eggProductions ∧ db'.eggSales = db.eggSales ∧
    db'.otherExpenses = db.otherExpenses := by
  unfold updateFeedConsumption at h
  split at h
  · simp at h
  · split at h
    · split at h
      · simp at h
      · exact updateFeedConsumptionRest_frame h
    · exact updateFeedConsumptionRest_frame h

theorem deleteFeedConsumption_frame {id : Nat} {db : DB} {u : Unit} {db' : DB}
    (h : deleteFeedConsumption id db = .ok (u, db')) :
    db'.rawMaterials = db.rawMaterials ∧ db'.finishedFeeds = db.finishedFeeds ∧
    db'.feedCompositions = db.feedCompositions ∧
    db'.chickenFlocks = db.chickenFlocks ∧
    db'.eggProductions = db.eggProductions ∧ db'.eggSales = db.eggSales ∧
    db'.otherExpenses = db.otherExpenses := by
  unfold deleteFeedConsumption at h
  split at h
  · simp at h
  · simp only [Except.ok.injEq, Prod.mk.injEq] at h
    obtain ⟨-, h⟩ := h
    subst h
    exact ⟨rfl, rfl, rfl, rfl, rfl, rfl, rfl⟩

theorem createEggProduction_frame {i : CreateEggProductionInput} {db : DB}
    {r : EggProduction} {db' : DB} (h : createEggProduction i db = .ok (r, db')) :
    db'.rawMaterials = db.rawMaterials ∧ db'.finishedFeeds = db.finishedFeeds ∧
    db'.feedCompositions = db.feedCompositions ∧
    db'.chickenFlocks = db.chickenFlocks ∧
    db'.feedConsumptions = db.feedConsumptions ∧ db'.eggSales = db.eggSales ∧
    db'.otherExpenses = db.otherExpenses := by
  unfold createEggProduction at h
  split at h
  · simp at h
  · simp only [Except.ok.injEq, Prod.mk.injEq] at h
    obtain ⟨-, h⟩ := h
    subst h
    exact ⟨rfl, rfl, rfl, rfl, rfl, rfl, rfl⟩

theorem updateEggProductionWrite_frame {i : UpdateEggProductionInput} {db : DB}
    {p : EggProduction} {r : EggProduction} {db' : DB}
    (h : updateEggProductionWrite i db p = .ok (r, db')) :
    db'.rawMaterials = db.rawMaterials ∧ db'.finishedFeeds = db.finishedFeeds ∧
    db'.feedCompositions = db.feedCompositions ∧
    db'.chickenFlocks = db.chickenFlocks ∧
    db'.feedConsumptions = db.feedConsumptions ∧ db'.eggSales = db.eggSales ∧
    db'.otherExpenses = db.otherExpenses := by
  unfold updateEggProductionWrite at h
  simp only [Except.ok.injEq, Prod.mk.injEq] at h
  obtain ⟨-, h⟩ := h
  subst h
  exact ⟨rfl, rfl, rfl, rfl, rfl, rfl, rfl⟩

theorem updateEggProduction_frame {i : UpdateEggProductionInput} {db : DB}
    {r : EggProduction} {db' : DB} (h : updateEggProduction i db = .ok (r, db')) :
    db'.rawMaterials = db.rawMaterials ∧ db'.finishedFeeds = db.finishedFeeds ∧
    db'.feedCompositions = db.feedCompositions ∧
    db'.chickenFlocks = db.chickenFlocks ∧
    db'.feedConsumptions = db.feedConsumptions ∧ db'.eggSales = db.eggSales ∧
    db'.otherExpenses = db.otherExpenses := by
  unfold updateEggProduction at h
  split at h
  · simp at h
  · split at h
    · split at h
      · simp at h
      · exact updateEggProductionWrite_frame h
    · exact updateEggProductionWrite_frame h

theorem deleteEggProduction_frame {id : Nat} {db : DB} {u : Unit} {db' : DB}
    (h : deleteEggProduction id db = .ok (u, db')) :
    db'.rawMaterials = db.rawMaterials ∧ db'.finishedFeeds = db.finishedFeeds ∧
    db'.feedCompositions = db.feedCompositions ∧
    db'.chickenFlocks = db.chickenFlocks ∧
    db'.feedConsumptions = db.feedConsumptions ∧ db'.eggSales = db.eggSales ∧
    db'.otherExpenses = db.otherExpenses := by
  unfold deleteEggProduction at h
  split at h
  · simp at h
  · simp only [Except.ok.injEq, Prod.mk.injEq] at h
    obtain ⟨-, h⟩ := h
    subst h
    exact ⟨rfl, rfl, rfl, rfl, rfl, rfl, rfl⟩

theorem createEggSales_frame {i : CreateEggSalesInput} {db : DB}
    {r : EggSale} {db' : DB} (h : createEggSales i db = .ok (r, db')) :
    db'.rawMaterials = db.rawMaterials ∧ db'.finishedFeeds = db.finishedFeeds ∧
    db'.feedCompositions = db.feedCompositions ∧
    db'.chickenFlocks = db.chickenFlocks ∧
    db'.feedConsumptions = db.feedConsumptions ∧
    db'.eggProductions = db.eggProductions ∧
    db'.otherExpenses = db.otherExpenses := by
  unfold createEggSales at h
  simp only [Except.ok.injEq, Prod.mk.injEq] at h
  obtain ⟨-, h⟩ := h
  subst h
  exact ⟨rfl, rfl, rfl, rfl, rfl, rfl, rfl⟩

theorem updateEggSales_frame {i : UpdateEggSalesInput} {db : DB}
    {r : EggSale} {db' : DB} (h : updateEggSales i db = .ok (r, db')) :
    db'.rawMaterials = db.rawMaterials ∧ db'.finishedFeeds = db.finishedFeeds ∧
    db'.feedCompositions = db.feedCompositions ∧
    db'.chickenFlocks = db.chickenFlocks ∧
    db'.feedConsumptions = db.feedConsumptions ∧
    db'.eggProductions = db.eggProductions ∧
    db'.otherExpenses = db.otherExpenses := by
  unfold updateEggSales at h
  split at h
  · simp at h
  · simp only [Except.ok.injEq, Prod.mk.injEq] at h
    obtain ⟨-, h⟩ := h
    subst h
    exact ⟨rfl, rfl, rfl, rfl, rfl, rfl, rfl⟩

theorem deleteEggSales_frame {id : Nat} {db : DB} {u : Unit} {db' : DB}
    (h : deleteEggSales id db = .ok (u, db')) :
    db'.rawMaterials = db.rawMaterials ∧ db'.finishedFeeds = db.finishedFeeds ∧
    db'.feedCompositions = db.feedCompositions ∧
    db'.chickenFlocks = db.chickenFlocks ∧
    db'.feedConsumptions = db.feedConsumptions ∧
    db'.eggProductions = db.eggProductions ∧
    db'.otherExpenses = db.otherExpenses := by
  unfold deleteEggSales at h
  split at h
  · simp at h
  · simp only [Except.ok.injEq, Prod.mk.injEq] at h
    obtain ⟨-, h⟩ := h
    subst h
    exact ⟨rfl, rfl, rfl, rfl, rfl, rfl, rfl⟩

theorem createOtherExpenses_frame {i : CreateOtherExpensesInput} {db : DB}
    {r : OtherExpense} {db' : DB} (h : createOtherExpenses i db = .ok (r, db')) :
    db'.rawMaterials = db.rawMaterials ∧ db'.finishedFeeds = db.finishedFeeds ∧
    db'.feedCompositions = db.feedCompositions ∧
    db'.chickenFlocks = db.chickenFlocks ∧
    db'.feedConsumptions = db.feedConsumptions ∧
    db'.eggProductions = db.eggProductions ∧ db'.eggSales = db.eggSales := by
  unfold createOtherExpenses at h
  simp only [Except.ok.injEq, Prod.mk.injEq] at h
  obtain ⟨-, h⟩ := h
  subst h
  exact ⟨rfl, rfl, rfl, rfl, rfl, rfl, rfl⟩

theorem updateOtherExpenses_frame {i : UpdateOtherExpensesInput} {db : DB}
    {r : OtherExpense} {db' : DB} (h : updateOtherExpenses i db = .ok (r, db')) :
    db'.rawMaterials = db.rawMaterials ∧ db'.finishedFeeds = db.finishedFeeds ∧
    db'.feedCompositions = db.feedCompositions ∧
    db'.chickenFlocks = db.chickenFlocks ∧
    db'.feedConsumptions = db.feedConsumptions ∧
    db'.eggProductions = db.eggProductions ∧ db'.eggSales = db.eggSales := by
  unfold updateOtherExpenses at h
  split at h
  · simp at h
  · simp only [Except.ok.injEq, Prod.mk.injEq] at h
    obtain ⟨-, h⟩ := h
    subst h
    exact ⟨rfl, rfl, rfl, rfl, rfl, rfl, rfl⟩

theorem deleteOtherExpenses_frame {id : Nat} {db : DB} {u : Unit} {db' : DB}
    (h : deleteOtherExpenses id db = .ok (u, db')) :
    db'.rawMaterials = db.rawMaterials ∧ db'.finishedFeeds = db.finishedFeeds ∧
    db'.feedCompositions = db.feedCompositions ∧
    db'.chickenFlocks = db.chickenFlocks ∧
    db'.feedConsumptions = db.feedConsumptions ∧
    db'.eggProductions = db.eggProductions ∧ db'.eggSales = db.eggSales := by
  unfold deleteOtherExpenses at h
  split at h
  · simp at h
  · simp only [Except.ok.injEq, Prod.mk.injEq] at h
    obtain ⟨-, h⟩ := h
    subst h
    exact ⟨rfl, rfl, rfl, rfl, rfl, rfl, rfl⟩

theorem discardRow_ok {α : Type} {e : Except String (α × DB)} {db' : DB}
    (h : discardRow e = .ok db') : ∃ r, e = .ok (r, db') := by
  cases e with
  | error s => simp [discardRow] at h
  | ok p =>
      obtain ⟨r, d⟩ := p
      simp only [discardRow, Except.ok.injEq] at h
      exact ⟨r, by rw [h]⟩

/-- Recomputing-and-persisting the feed cost establishes the invariant for
that feed, whatever held before. -/
theorem costOk_updateFinishedFeedCost (db : DB) (fid : Nat) :
    costOk (updateFinishedFeedCost fid db) fid := by
  intro f hf hfid
  have hcost : feedCostOf (updateFinishedFeedCost fid db) fid = feedCostOf db fid :=
    feedCostOf_congr db _ rfl rfl fid
  rw [hcost]
  unfold updateFinishedFeedCost at hf
  simp only [List.mem_map] at hf
  obtain ⟨f0, hf0, rfl⟩ := hf
  by_cases hid : (f0.id == fid) = true
  · simp [hid]
  · simp only [hid, if_false, Bool.false_eq_true] at hfid ⊢
    exact absurd (by simp [hfid]) hid

/-- None of the flock/consumption/production/sale/expense operations disturbs
the feed-cost invariant of any feed. -/
theorem applyNonFeedOp_preserves_costOk (op : NonFeedOp) (db db' : DB)
    (h : applyNonFeedOp op db = .ok db') (fid : Nat) (hok : costOk db fid) :
    costOk db' fid := by
  cases op with
  | createFlock i =>
      simp only [applyNonFeedOp] at h
      obtain ⟨r, hr⟩ := discardRow_ok h
      obtain ⟨hm, hf, hc, -, -, -, -⟩ := createChickenFlock_frame hr
      exact costOk_congr db db' hf hc hm fid hok
  | updateFlock i =>
      simp only [applyNonFeedOp] at h
      obtain ⟨r, hr⟩ := discardRow_ok h
      obtain ⟨hm, hf, hc, -, -, -, -⟩ := updateChickenFlock_frame hr
      exact costOk_congr db db' hf hc hm fid hok
  | deleteFlock id =>
      simp only [applyNonFeedOp] at h
      obtain ⟨r, hr⟩ := discardRow_ok h
      obtain ⟨hm, hf, hc, -, -, -, -⟩ := deleteChickenFlock_frame hr
      exact costOk_congr db db' hf hc hm fid hok
  | createConsumption i =>
      simp only [applyNonFeedOp] at h
      obtain ⟨r, hr⟩ := discardRow_ok h
      obtain ⟨hm, hf, hc, -, -, -, -⟩ := createFeedConsumption_frame hr
      exact costOk_congr db db' hf hc hm fid hok
  | updateConsumption i =>
      simp only [applyNonFeedOp] at h
      obtain ⟨r, hr⟩ := discardRow_ok h
      obtain ⟨hm, hf, hc, -, -, -, -⟩ := updateFeedConsumption_frame hr
      exact costOk_congr db db' hf hc hm fid hok
  | deleteConsumption id =>
      simp only [applyNonFeedOp] at h
      obtain ⟨r, hr⟩ := discardRow_ok h
      obtain ⟨hm, hf, hc, -, -, -, -⟩ := deleteFeedConsumption_frame hr
      exact costOk_congr db db' hf hc hm fid hok
  | createProduction i =>
      simp only [applyNonFeedOp] at h
      obtain ⟨r, hr⟩ := discardRow_ok h
      obtain ⟨hm, hf, hc, -, -, -, -⟩ := createEggProduction_frame hr
      exact costOk_congr db db' hf hc hm fid hok
  | updateProduction i =>
      simp only [applyNonFeedOp] at h
      obtain ⟨r, hr⟩ := discardRow_ok h
      obtain ⟨hm, hf, hc, -, -, -, -⟩ := updateEggProduction_frame hr
      exact costOk_congr db db' hf hc hm fid hok
  | deleteProduction id =>
      simp only [applyNonFeedOp] at h
      obtain ⟨r, hr⟩ := discardRow_ok h
      obtain ⟨hm, hf, hc, -, -, -, -⟩ := deleteEggProduction_frame hr
      exact costOk_congr db db' hf hc hm fid hok
  | createSale i =>
      simp only [applyNonFeedOp] at h
      obtain ⟨r, hr⟩ := discardRow_ok h
      obtain ⟨hm, hf, hc, -, -, -, -⟩ := createEggSales_frame hr
      exact costOk_congr db db' hf hc hm fid hok
  | updateSale i =>
      simp only [applyNonFeedOp] at h
      obtain ⟨r, hr⟩ := discardRow_ok h
      obtain ⟨hm, hf, hc, -, -, -, -⟩ := updateEggSales_frame hr
      exact costOk_congr db db' hf hc hm fid hok
  | deleteSale id =>
      simp only [applyNonFeedOp] at h
      obtain ⟨r, hr⟩ := discardRow_ok h
      obtain ⟨hm, hf, hc, -, -, -, -⟩ := deleteEggSales_frame hr
      exact costOk_congr db db' hf hc hm fid hok
  | createExpense i =>
      simp only [applyNonFeedOp] at h
      obtain ⟨r, hr⟩ := discardRow_ok h
      obtain ⟨hm, hf, hc, -, -, -, -⟩ := createOtherExpenses_frame hr
      exact costOk_congr db db' hf hc hm fid hok
  | updateExpense i =>
      simp only [applyNonFeedOp] at h
      obtain ⟨r, hr⟩ := discardRow_ok h
      obtain ⟨hm, hf, hc, -, -, -, -⟩ := updateOtherExpenses_frame hr
      exact costOk_congr db db' hf hc hm fid hok
  | deleteExpense id =>
      simp only [applyNonFeedOp] at h
      obtain ⟨r, hr⟩ := discardRow_ok h
      obtain ⟨hm, hf, hc, -, -, -, -⟩ := deleteOtherExpenses_frame hr
      exact costOk_congr db db' hf hc hm fid hok

/-- A successful `createFeedComposition` leaves the written feed's cost
invariant satisfied. -/
theorem createFeedComposition_costOk {i : CreateFeedCompositionInput} {db : DB}
    {c : FeedComposition} {db' : DB} (h : createFeedComposition i db = .ok (c, db')) :
    costOk db' i.finished_feed_id := by
  unfold createFeedComposition at h
  split at h
  · simp at h
  · split at h
    · simp at h
    · split at h
      · simp at h
      · simp only [Except.ok.injEq, Prod.mk.injEq] at h
        obtain ⟨-, h⟩ := h
        subst h
        exact costOk_updateFinishedFeedCost _ _

/-- A successful `updateFeedComposition` leaves the owning feed's cost
invariant satisfied. -/
theorem updateFeedComposition_costOk {i : UpdateFeedCompositionInput} {db : DB}
    {c : FeedComposition} {db' : DB} (h : updateFeedComposition i db = .ok (c, db')) :
    costOk db' c.finished_feed_id := by
  unfold updateFeedComposition at h
  split at h
  · simp at h
  · simp only [Except.ok.injEq, Prod.mk.injEq] at h
    obtain ⟨hc, h⟩ := h
    subst h
    subst hc
    exact costOk_updateFinishedFeedCost _ _

/-- A successful `deleteFeedComposition` leaves the deleted composition's feed
with its cost invariant satisfied. -/
theorem deleteFeedComposition_costOk {id : Nat} {db : DB} {c : FeedComposition}
    {u : Unit} {db' : DB}
    (hfind : db.feedCompositions.find? (fun r => r.id == id) = some c)
    (h : deleteFeedComposition id db = .ok (u, db')) :
    costOk db' c.finished_feed_id := by
  unfold deleteFeedComposition at h
  rw [hfind] at h
  simp only [Except.ok.injEq, Prod.mk.injEq] at h
  obtain ⟨-, h⟩ := h
  subst h
  exact costOk_updateFinishedFeedCost _ _

/-! ## Claims -/

/-- Claim C1 (amended): for every finished feed F, immediately after any successful
feed-composition create, update or delete referencing F, the persisted
`F.cost_per_kg` equals the weighted sum over F's compositions
(`percentage / 100 * price_per_kg`, 0 when F has none), and this equality is
preserved by every flock, feed-consumption, egg-production, egg-sale and
other-expense operation.  (The claim's further assertion that
`updateRawFeedMaterial` also preserves it is refuted separately.) -/
theorem feedCost_recompute_invariant (db : DB) :
    (∀ (i : CreateFeedCompositionInput) (c : FeedComposition) (db' : DB),
      createFeedComposition i db = .ok (c, db') → costOk db' i.finished_feed_id) ∧
    (∀ (i : UpdateFeedCompositionInput) (c : FeedComposition) (db' : DB),
      updateFeedComposition i db = .ok (c, db') → costOk db' c.finished_feed_id) ∧
    (∀ (id : Nat) (c : FeedComposition) (u : Unit) (db' : DB),
      db.feedCompositions.find? (fun r => r.id == id) = some c →
      deleteFeedComposition id db = .ok (u, db') → costOk db' c.finished_feed_id) ∧
    (∀ (op : NonFeedOp) (db' : DB),
      applyNonFeedOp op db = .ok db' → ∀ fid, costOk db fid → costOk db' fid) :=
  ⟨fun _ _ _ h => createFeedComposition_costOk h,
   fun _ _ _ h => updateFeedComposition_costOk h,
   fun _ _ _ _ hfind h => deleteFeedComposition_costOk hfind h,
   fun op db' h fid hok => applyNonFeedOp_preserves_costOk op db db' h fid hok⟩

/-- Claim C1 witness: a concrete composition write on `staleDb0` succeeds and leaves
the cost invariant satisfied for feed 1. -/
theorem feedCost_recompute_invariant_witness :
    (createFeedComposition
        { finished_feed_id := 1, raw_material_id := 1, percentage := 50 } staleDb0 =
      .ok (okRowOr { id := 0, finished_feed_id := 0, raw_material_id := 0, percentage := 0 }
            (createFeedComposition
              { finished_feed_id := 1, raw_material_id := 1, percentage := 50 } staleDb0),
          staleDb1)) ∧
    costOk staleDb1 1 :=
  ⟨rfl,
   (feedCost_recompute_invariant staleDb0).1
     { finished_feed_id := 1, raw_material_id := 1, percentage := 50 }
     (okRowOr { id := 0, finished_feed_id := 0, raw_material_id := 0, percentage := 0 }
       (createFeedComposition
         { finished_feed_id := 1, raw_material_id := 1, percentage := 50 } staleDb0))
     staleDb1 rfl⟩

/-- Claim C1 counterexample: after a composition write referencing feed 1, a
subsequent `updateRawFeedMaterial` that raises the referenced material's price
from 2 to 4 leaves the persisted `cost_per_kg` stale (1) while the weighted
sum is now 2 — the claim's "preserved by every subsequent operation,
including updateRawFeedMaterial" fails. -/
theorem feedCost_stale_counterexample :
    (createFeedComposition
      { finished_feed_id := 1, raw_material_id := 1, percentage := 50 } staleDb0).isOk = true ∧
    costOk staleDb1 1 ∧
    (updateRawFeedMaterial { id := 1, name := none, price_per_kg := some 4 } staleDb1).isOk = true ∧
    ¬ costOk staleDb2 1 := by
  refine ⟨rfl, ?_, rfl, ?_⟩
  · exact createFeedComposition_costOk
      (show createFeedComposition
          { finished_feed_id := 1, raw_material_id := 1, percentage := 50 } staleDb0 =
        .ok (okRowOr { id := 0, finished_feed_id := 0, raw_material_id := 0, percentage := 0 }
              (createFeedComposition
                { finished_feed_id := 1, raw_material_id := 1, percentage := 50 } staleDb0),
            staleDb1) from rfl)
  · intro hco
    have hfeeds : staleDb2.finishedFeeds = [{ id := 1, name := "mix", cost_per_kg := 1 }] := by
      norm_num [staleDb2, staleDb1, staleDb0, DB.empty, okStateOr, createFeedComposition,
        updateRawFeedMaterial, updateFinishedFeedCost, feedCostOf]
    have hsum : feedCostOf staleDb2 1 = 2 := by
      norm_num [staleDb2, staleDb1, staleDb0, DB.empty, okStateOr, createFeedComposition,
        updateRawFeedMaterial, updateFinishedFeedCost, feedCostOf]
    have h2 := hco { id := 1, name := "mix", cost_per_kg := 1 }
      (by rw [hfeeds]; exact List.mem_singleton_self _) rfl
    rw [hsum] at h2
    exact absurd h2 (by norm_num)

/-- Claim C2: every egg sale persists `total_price = quantity * price_per_egg`:
`createEggSales` stores the product, and `updateEggSales` recomputes it from
the effective (new or retained) quantity and price whenever the update touches
either field. -/
theorem eggSale_total_price (db : DB) :
    (∀ (i : CreateEggSalesInput) (s : EggSale) (db' : DB),
      createEggSales i db = .ok (s, db') →
        s.total_price = (i.quantity : ℚ) * i.price_per_egg ∧
        s.quantity = i.quantity ∧ s.price_per_egg = i.price_per_egg ∧
        s ∈ db'.eggSales) ∧
    (∀ (i : UpdateEggSalesInput) (s : EggSale) (db' : DB),
      updateEggSales i db = .ok (s, db') →
      (i.quantity.isSome ∨ i.price_per_egg.isSome) →
        s.total_price = (s.quantity : ℚ) * s.price_per_egg ∧ s ∈ db'.eggSales) ∧
    (∀ (i : UpdateEggSalesInput) (cur s : EggSale) (db' : DB),
      db.eggSales.find? (fun r => r.id == i.id) = some cur →
      updateEggSales i db = .ok (s, db') →
        s.quantity = i.quantity.getD cur.quantity ∧
        s.price_per_egg = i.price_per_egg.getD cur.price_per_egg) := by
  refine ⟨?_, ?_, ?_⟩
  · intro i s db' h
    unfold createEggSales at h
    simp only [Except.ok.injEq, Prod.mk.injEq] at h
    obtain ⟨hs, hdb⟩ := h
    subst hs
    subst hdb
    exact ⟨rfl, rfl, rfl, by simp⟩
  · intro i s db' h htouched
    unfold updateEggSales at h
    split at h
    · simp at h
    · rename_i cur hfind
      simp only [Except.ok.injEq, Prod.mk.injEq] at h
      obtain ⟨hs, hdb⟩ := h
      subst hdb
      subst hs
      have hcond : (i.quantity.isSome || i.price_per_egg.isSome) = true := by
        rcases htouched with h1 | h1 <;> simp [h1]
      constructor
      · simp [hcond]
      · have hmem : cur ∈ db.eggSales := List.mem_of_find?_eq_some hfind
        have hid : (cur.id == i.id) = true := by
          have := List.find?_some hfind
          simpa using this
        have hmap := List.mem_map_of_mem
          (fun r => if r.id == i.id then
            { cur with
                sale_date := i.sale_date.getD cur.sale_date,
                quality := i.quality.getD cur.quality,
                quantity := i.quantity.getD cur.quantity,
                price_per_egg := i.price_per_egg.getD cur.price_per_egg,
                total_price :=
                  if i.quantity.isSome || i.price_per_egg.isSome then
                    (i.quantity.getD cur.quantity : ℚ) * i.price_per_egg.getD cur.price_per_egg
                  else cur.total_price }
            else r) hmem
        simpa [hid] using hmap
  · intro i cur s db' hfind h
    unfold updateEggSales at h
    rw [hfind] at h
    simp only [Except.ok.injEq, Prod.mk.injEq] at h
    obtain ⟨hs, -⟩ := h
    subst hs
    exact ⟨rfl, rfl⟩

/-- Claim C2 witness: updating the quantity of the sample sale recomputes its total
price as quantity times price. -/
theorem eggSale_total_price_witness :
    (updateEggSales saleUpdIn sampleDb =
      .ok (okRowOr dfltSale (updateEggSales saleUpdIn sampleDb),
           okStateOr DB.empty (updateEggSales saleUpdIn sampleDb))) ∧
    (saleUpdIn.quantity.isSome ∨ saleUpdIn.price_per_egg.isSome) ∧
    ((okRowOr dfltSale (updateEggSales saleUpdIn sampleDb)).total_price =
      ((okRowOr dfltSale (updateEggSales saleUpdIn sampleDb)).quantity : ℚ) *
        (okRowOr dfltSale (updateEggSales saleUpdIn sampleDb)).price_per_egg) :=
  ⟨rfl, Or.inl rfl,
   ((eggSale_total_price sampleDb).2.1 saleUpdIn
     (okRowOr dfltSale (updateEggSales saleUpdIn sampleDb))
     (okStateOr DB.empty (updateEggSales saleUpdIn sampleDb))
     rfl (Or.inl rfl)).1⟩

/-- Claim C3: `generateProfitReport` returns the three date-bounded sums, the profit
as revenue minus feed cost minus other expenses, and the input period echoed
back. -/
theorem generateProfitReport_correct (i : ProfitReportInput) (db : DB) :
    (generateProfitReport i db).total_revenue =
      ((db.eggSales.filter (fun s =>
          decide (i.period_start ≤ s.sale_date ∧ s.sale_date ≤ i.period_end))).map
        (fun s => s.total_price)).sum ∧
    (generateProfitReport i db).total_feed_cost =
      ((db.feedConsumptions.filter (fun c =>
          decide (i.period_start ≤ c.consumption_date ∧ c.consumption_date ≤ i.period_end))).map
        (fun c => c.cost)).sum ∧
    (generateProfitReport i db).total_other_expenses =
      ((db.otherExpenses.filter (fun e =>
          decide (i.period_start ≤ e.expense_date ∧ e.expense_date ≤ i.period_end))).map
        (fun e => e.amount)).sum ∧
    (generateProfitReport i db).total_profit =
      (generateProfitReport i db).total_revenue -
        (generateProfitReport i db).total_feed_cost -
        (generateProfitReport i db).total_other_expenses ∧
    (generateProfitReport i db).period_start = i.period_start ∧
    (generateProfitReport i db).period_end = i.period_end := by
  have hfil : ∀ (s e d : Nat), inRange s e d = decide (s ≤ d ∧ d ≤ e) := by
    intro s e d
    by_cases h1 : s ≤ d <;> by_cases h2 : d ≤ e <;> simp [inRange, h1, h2]
  refine ⟨?_, ?_, ?_, rfl, rfl, rfl⟩
  · show calculateTotalRevenue i.period_start i.period_end db = _
    unfold calculateTotalRevenue
    rw [foldl_add_eq_sum, zero_add,
      List.filter_congr (fun r _ => hfil i.period_start i.period_end r.sale_date)]
  · show calculateTotalFeedCost i.period_start i.period_end db = _
    unfold calculateTotalFeedCost
    rw [foldl_add_eq_sum, zero_add,
      List.filter_congr (fun r _ => hfil i.period_start i.period_end r.consumption_date)]
  · show calculateTotalOtherExpenses i.period_start i.period_end db = _
    unfold calculateTotalOtherExpenses
    rw [foldl_add_eq_sum, zero_add,
      List.filter_congr (fun r _ => hfil i.period_start i.period_end r.expense_date)]

/-- Claim C4: every date-range query is inclusive on both boundaries and excludes
rows strictly outside the range, and every date-range sum is 0 when no row
falls in the range. -/
theorem dateRange_queries (s e : Nat) (db : DB) :
    (∀ r, r ∈ getEggSalesByDateRange s e db ↔
      r ∈ db.eggSales ∧ s ≤ r.sale_date ∧ r.sale_date ≤ e) ∧
    (∀ r, r ∈ getOtherExpensesByDateRange s e db ↔
      r ∈ db.otherExpenses ∧ s ≤ r.expense_date ∧ r.expense_date ≤ e) ∧
    (∀ r, r ∈ getEggProductionsByDateRange s e db ↔
      r ∈ db.eggProductions ∧ s ≤ r.production_date ∧ r.production_date ≤ e) ∧
    ((∀ r ∈ db.eggSales, ¬(s ≤ r.sale_date ∧ r.sale_date ≤ e)) →
      calculateTotalRevenue s e db = 0 ∧ getTotalRevenueByDateRange s e db = 0) ∧
    ((∀ r ∈ db.feedConsumptions, ¬(s ≤ r.consumption_date ∧ r.consumption_date ≤ e)) →
      calculateTotalFeedCost s e db = 0 ∧ getTotalFeedCostByDateRange s e db = 0) ∧
    ((∀ r ∈ db.otherExpenses, ¬(s ≤ r.expense_date ∧ r.expense_date ≤ e)) →
      calculateTotalOtherExpenses s e db = 0 ∧ getTotalExpensesByDateRange s e db = 0) := by
  refine ⟨?_, ?_, ?_, ?_, ?_, ?_⟩
  · intro r
    simp [getEggSalesByDateRange, List.mem_filter, inRange, and_assoc]
  · intro r
    simp [getOtherExpensesByDateRange, List.mem_filter, inRange, and_assoc]
  · intro r
    simp [getEggProductionsByDateRange, List.mem_filter, inRange, and_assoc]
  · intro hnone
    have hfil : db.eggSales.filter (fun r => inRange s e r.sale_date) = [] := by
      rw [List.filter_eq_nil_iff]
      intro r hr
      have := hnone r hr
      simp only [inRange, Bool.and_eq_true, decide_eq_true_eq]
      tauto
    constructor
    · unfold calculateTotalRevenue
      rw [hfil]
      rfl
    · unfold getTotalRevenueByDateRange
      rw [hfil]
      rfl
  · intro hnone
    have hfil : db.feedConsumptions.filter (fun r => inRange s e r.consumption_date) = [] := by
      rw [List.filter_eq_nil_iff]
      intro r hr
      have := hnone r hr
      simp only [inRange, Bool.and_eq_true, decide_eq_true_eq]
      tauto
    constructor
    · unfold calculateTotalFeedCost
      rw [hfil]
      rfl
    · unfold getTotalFeedCostByDateRange
      rw [hfil]
      rfl
  · intro hnone
    have hfil : db.otherExpenses.filter (fun r => inRange s e r.expense_date) = [] := by
      rw [List.filter_eq_nil_iff]
      intro r hr
      have := hnone r hr
      simp only [inRange, Bool.and_eq_true, decide_eq_true_eq]
      tauto
    constructor
    · unfold calculateTotalOtherExpenses
      rw [hfil]
      rfl
    · unfold getTotalExpensesByDateRange
      rw [hfil]
      rfl

/-- Claim C4 witness: on the sample store, the period 20..30 contains no egg sale
(the only sale is on day 12), and the revenue sums are 0. -/
theorem dateRange_queries_witness :
    (∀ r ∈ sampleDb.eggSales, ¬(20 ≤ r.sale_date ∧ r.sale_date ≤ 30)) ∧
    (calculateTotalRevenue 20 30 sampleDb = 0 ∧
      getTotalRevenueByDateRange 20 30 sampleDb = 0) :=
  ⟨by decide, (dateRange_queries 20 30 sampleDb).2.2.2.1 (by decide)⟩

/-- On the recompute path of `updateFeedConsumption`, the written cost is the
effective quantity times the looked-up feed's current cost. -/
theorem updateFeedConsumptionWrite_cost {i : UpdateFeedConsumptionInput}
    {db : DB} {existing : FeedConsumption} {c : FeedConsumption} {db' : DB}
    {feed : FinishedFeed}
    (h : updateFeedConsumptionWrite i db existing = .ok (c, db'))
    (htouched : i.quantity_kg.isSome ∨ i.finished_feed_id.isSome)
    (hfind : db.finishedFeeds.find? (fun f => f.id == c.finished_feed_id) = some feed) :
    c.cost = c.quantity_kg * feed.cost_per_kg := by
  have hcond : (i.quantity_kg.isSome || i.finished_feed_id.isSome) = true := by
    rcases htouched with h1 | h1 <;> simp [h1]
  unfold updateFeedConsumptionWrite at h
  split at h
  · dsimp only at h
    split at h
    · simp at h
    · rename_i feed0 hfind0
      simp only [Except.ok.injEq, Prod.mk.injEq] at h
      obtain ⟨hc, hdb⟩ := h
      subst hdb
      subst hc
      dsimp only at hfind
      rw [hfind0] at hfind
      simp only [Option.some.injEq] at hfind
      subst hfind
      rfl
  · rename_i hfalse
    exact absurd hcond hfalse

/-- Claim C5: every feed-consumption record persists
`cost = quantity_kg * feed.cost_per_kg` as of the write: `createFeedConsumption`
computes it at insert time, `updateFeedConsumption` recomputes it from the
then-current feed cost whenever `quantity_kg` or `finished_feed_id` changes,
and composition writes (which change `cost_per_kg`) never touch stored
consumption rows. -/
theorem feedConsumption_cost (db : DB) :
    (∀ (i : CreateFeedConsumptionInput) (c : FeedConsumption) (db' : DB)
        (feed : FinishedFeed),
      db.finishedFeeds.find? (fun f => f.id == i.finished_feed_id) = some feed →
      createFeedConsumption i db = .ok (c, db') →
        c.cost = i.quantity_kg * feed.cost_per_kg ∧ c.quantity_kg = i.quantity_kg ∧
        c.finished_feed_id = i.finished_feed_id ∧ c ∈ db'.feedConsumptions) ∧
    (∀ (i : UpdateFeedConsumptionInput) (c : FeedConsumption) (db' : DB)
        (feed : FinishedFeed),
      updateFeedConsumption i db = .ok (c, db') →
      (i.quantity_kg.isSome ∨ i.finished_feed_id.isSome) →
      db.finishedFeeds.find? (fun f => f.id == c.finished_feed_id) = some feed →
        c.cost = c.quantity_kg * feed.cost_per_kg) ∧
    (∀ (i : CreateFeedCompositionInput) (c : FeedComposition) (db' : DB),
      createFeedComposition i db = .ok (c, db') →
        db'.feedConsumptions = db.feedConsumptions) ∧
    (∀ (i : UpdateFeedCompositionInput) (c : FeedComposition) (db' : DB),
      updateFeedComposition i db = .ok (c, db') →
        db'.feedConsumptions = db.feedConsumptions) ∧
    (∀ (id : Nat) (u : Unit) (db' : DB),
      deleteFeedComposition id db = .ok (u, db') →
        db'.feedConsumptions = db.feedConsumptions) := by
  refine ⟨?_, ?_, ?_, ?_, ?_⟩
  · intro i c db' feed hfind h
    unfold createFeedConsumption at h
    split at h
    · simp at h
    · split at h
      · simp at h
      · rename_i feed0 hfind0
        rw [hfind] at hfind0
        simp only [Option.some.injEq] at hfind0
        subst hfind0
        simp only [Except.ok.injEq, Prod.mk.injEq] at h
        obtain ⟨hc, hdb⟩ := h
        subst hdb
        subst hc
        exact ⟨rfl, rfl, rfl, by simp⟩
  · intro i c db' feed h htouched hfind
    unfold updateFeedConsumption at h
    split at h
    · simp at h
    · split at h
      · split at h
        · simp at h
        · unfold updateFeedConsumptionRest at h
          split at h
          · split at h
            · simp at h
            · exact updateFeedConsumptionWrite_cost h htouched hfind
          · exact updateFeedConsumptionWrite_cost h htouched hfind
      · unfold updateFeedConsumptionRest at h
        split at h
        · split at h
          · simp at h
          · exact updateFeedConsumptionWrite_cost h htouched hfind
        · exact updateFeedConsumptionWrite_cost h htouched hfind
  · intro i c db' h
    exact (createFeedComposition_frame h).2.2.1
  · intro i c db' h
    exact (updateFeedComposition_frame h).2.2.1
  · intro id u db' h
    exact (deleteFeedComposition_frame h).2.2.1

/-- Claim C5 witness: creating a consumption of 5 kg of feed 1 (current cost 3) on
the sample store persists cost `5 * 3`. -/
theorem feedConsumption_cost_witness :
    (sampleDb.finishedFeeds.find? (fun f => f.id == consCreateIn.finished_feed_id) =
      some { id := 1, name := "mix", cost_per_kg := 3 }) ∧
    (createFeedConsumption consCreateIn sampleDb =
      .ok (okRowOr dfltConsumption (createFeedConsumption consCreateIn sampleDb),
           okStateOr DB.empty (createFeedConsumption consCreateIn sampleDb))) ∧
    ((okRowOr dfltConsumption (createFeedConsumption consCreateIn sampleDb)).cost =
      consCreateIn.quantity_kg *
        ({ id := 1, name := "mix", cost_per_kg := 3 } : FinishedFeed).cost_per_kg ∧
      (okRowOr dfltConsumption (createFeedConsumption consCreateIn sampleDb)).quantity_kg =
        consCreateIn.quantity_kg ∧
      (okRowOr dfltConsumption (createFeedConsumption consCreateIn sampleDb)).finished_feed_id =
        consCreateIn.finished_feed_id ∧
      okRowOr dfltConsumption (createFeedConsumption consCreateIn sampleDb) ∈
        (okStateOr DB.empty (createFeedConsumption consCreateIn sampleDb)).feedConsumptions) :=
  ⟨rfl, rfl,
   (feedConsumption_cost sampleDb).1 consCreateIn
     (okRowOr dfltConsumption (createFeedConsumption consCreateIn sampleDb))
     (okStateOr DB.empty (createFeedConsumption consCreateIn sampleDb))
     { id := 1, name := "mix", cost_per_kg := 3 } rfl rfl⟩

/-- Claim C6 (amended): for every entity, update or delete with an id that resolves
to no row fails with the entity's thrown error and leaves the store unchanged
(an erroring handler performs no write); the message is matched by the
substring "not found" for every entity except egg productions, whose messages
are matched by "does not exist". -/
theorem update_delete_missing_id (db : DB) :
    (∀ (i : UpdateRawFeedMaterialInput), (∀ r ∈ db.rawMaterials, r.id ≠ i.id) →
      updateRawFeedMaterial i db = .error ("Raw feed material with id " ++ toString i.id ++ " not found") ∧
      strHasSub ("Raw feed material with id " ++ toString i.id ++ " not found") "not found" = true) ∧
    (∀ (id : Nat), (∀ r ∈ db.rawMaterials, r.id ≠ id) →
      deleteRawFeedMaterial id db = .error ("Raw feed material with id " ++ toString id ++ " not found") ∧
      strHasSub ("Raw feed material with id " ++ toString id ++ " not found") "not found" = true) ∧
    (∀ (i : UpdateFinishedFeedInput), (∀ r ∈ db.finishedFeeds, r.id ≠ i.id) →
      updateFinishedFeed i db = .error ("Finished feed with ID " ++ toString i.id ++ " not found") ∧
      strHasSub ("Finished feed with ID " ++ toString i.id ++ " not found") "not found" = true) ∧
    (∀ (id : Nat), (∀ r ∈ db.finishedFeeds, r.id ≠ id) →
      deleteFinishedFeed id db = .error ("Finished feed with ID " ++ toString id ++ " not found") ∧
      strHasSub ("Finished feed with ID " ++ toString id ++ " not found") "not found" = true) ∧
    (∀ (i : UpdateFeedCompositionInput), (∀ r ∈ db.feedCompositions, r.id ≠ i.id) →
      updateFeedComposition i db = .error ("Feed composition with id " ++ toString i.id ++ " not found") ∧
      strHasSub ("Feed composition with id " ++ toString i.id ++ " not found") "not found" = true) ∧
    (∀ (id : Nat), (∀ r ∈ db.feedCompositions, r.id ≠ id) →
      deleteFeedComposition id db = .error ("Feed composition with id " ++ toString id ++ " not found") ∧
      strHasSub ("Feed composition with id " ++ toString id ++ " not found") "not found" = true) ∧
    (∀ (i : UpdateChickenFlockInput), (∀ r ∈ db.chickenFlocks, r.id ≠ i.id) →
      updateChickenFlock i db = .error ("Chicken flock with ID " ++ toString i.id ++ " not found") ∧
      strHasSub ("Chicken flock with ID " ++ toString i.id ++ " not found") "not found" = true) ∧
    (∀ (id : Nat), (∀ r ∈ db.chickenFlocks, r.id ≠ id) →
      deleteChickenFlock id db = .error ("Chicken flock with ID " ++ toString id ++ " not found") ∧
      strHasSub ("Chicken flock with ID " ++ toString id ++ " not found") "not found" = true) ∧
    (∀ (i : UpdateFeedConsumptionInput), (∀ r ∈ db.feedConsumptions, r.id ≠ i.id) →
      updateFeedConsumption i db = .error ("Feed consumption with ID " ++ toString i.id ++ " not found") ∧
      strHasSub ("Feed consumption with ID " ++ toString i.id ++ " not found") "not found" = true) ∧
    (∀ (id : Nat), (∀ r ∈ db.feedConsumptions, r.id ≠ id) →
      deleteFeedConsumption id db = .error ("Feed consumption with ID " ++ toString id ++ " not found") ∧
      strHasSub ("Feed consumption with ID " ++ toString id ++ " not found") "not found" = true) ∧
    (∀ (i : UpdateEggProductionInput), (∀ r ∈ db.eggProductions, r.id ≠ i.id) →
      updateEggProduction i db = .error ("Egg production record with id " ++ toString i.id ++ " does not exist") ∧
      strHasSub ("Egg production record with id " ++ toString i.id ++ " does not exist") "does not exist" = true) ∧
    (∀ (id : Nat), (∀ r ∈ db.eggProductions, r.id ≠ id) →
      deleteEggProduction id db = .error ("Egg production record with id " ++ toString id ++ " does not exist") ∧
      strHasSub ("Egg production record with id " ++ toString id ++ " does not exist") "does not exist" = true) ∧
    (∀ (i : UpdateEggSalesInput), (∀ r ∈ db.eggSales, r.id ≠ i.id) →
      updateEggSales i db = .error "Egg sale record not found" ∧
      strHasSub "Egg sale record not found" "not found" = true) ∧
    (∀ (id : Nat), (∀ r ∈ db.eggSales, r.id ≠ id) →
      deleteEggSales id db = .error "Egg sale record not found" ∧
      strHasSub "Egg sale record not found" "not found" = true) ∧
    (∀ (i : UpdateOtherExpensesInput), (∀ r ∈ db.otherExpenses, r.id ≠ i.id) →
      updateOtherExpenses i db = .error "Other expense not found" ∧
      strHasSub "Other expense not found" "not found" = true) ∧
    (∀ (id : Nat), (∀ r ∈ db.otherExpenses, r.id ≠ id) →
      deleteOtherExpenses id db = .error "Other expense not found" ∧
      strHasSub "Other expense not found" "not found" = true) := by
  refine ⟨?_, ?_, ?_, ?_, ?_, ?_, ?_, ?_, ?_, ?_, ?_, ?_, ?_, ?_, ?_, ?_⟩
  · intro i hnone
    have hfind : db.rawMaterials.find? (fun r => r.id == i.id) = none := by
      rw [List.find?_eq_none]
      intro r hr
      simpa using hnone r hr
    refine ⟨?_, ?_⟩
    · unfold updateRawFeedMaterial
      rw [hfind]
    · exact strHasSub_append _ _ _ (by decide)
  · intro id hnone
    have hfind : db.rawMaterials.find? (fun r => r.id == id) = none := by
      rw [List.find?_eq_none]
      intro r hr
      simpa using hnone r hr
    refine ⟨?_, ?_⟩
    · unfold deleteRawFeedMaterial
      rw [hfind]
    · exact strHasSub_append _ _ _ (by decide)
  · intro i hnone
    have hfind : db.finishedFeeds.find? (fun r => r.id == i.id) = none := by
      rw [List.find?_eq_none]
      intro r hr
      simpa using hnone r hr
    refine ⟨?_, ?_⟩
    · unfold updateFinishedFeed
      rw [hfind]
    · exact strHasSub_append _ _ _ (by decide)
  · intro id hnone
    have hfind : db.finishedFeeds.find? (fun r => r.id == id) = none := by
      rw [List.find?_eq_none]
      intro r hr
      simpa using hnone r hr
    refine ⟨?_, ?_⟩
    · unfold deleteFinishedFeed
      rw [hfind]
    · exact strHasSub_append _ _ _ (by decide)
  · intro i hnone
    have hfind : db.feedCompositions.find? (fun r => r.id == i.id) = none := by
      rw [List.find?_eq_none]
      intro r hr
      simpa using hnone r hr
    refine ⟨?_, ?_⟩
    · unfold updateFeedComposition
      rw [hfind]
    · exact strHasSub_append _ _ _ (by decide)
  · intro id hnone
    have hfind : db.feedCompositions.find? (fun r => r.id == id) = none := by
      rw [List.find?_eq_none]
      intro r hr
      simpa using hnone r hr
    refine ⟨?_, ?_⟩
    · unfold deleteFeedComposition
      rw [hfind]
    · exact strHasSub_append _ _ _ (by decide)
  · intro i hnone
    have hfind : db.chickenFlocks.find? (fun r => r.id == i.id) = none := by
      rw [List.find?_eq_none]
      intro r hr
      simpa using hnone r hr
    refine ⟨?_, ?_⟩
    · unfold updateChickenFlock
      rw [hfind]
    · exact strHasSub_append _ _ _ (by decide)
  · intro id hnone
    have hfind : db.chickenFlocks.find? (fun r => r.id == id) = none := by
      rw [List.find?_eq_none]
      intro r hr
      simpa using hnone r hr
    refine ⟨?_, ?_⟩
    · unfold deleteChickenFlock
      rw [hfind]
    · exact strHasSub_append _ _ _ (by decide)
  · intro i hnone
    have hfind : db.feedConsumptions.find? (fun r => r.id == i.id) = none := by
      rw [List.find?_eq_none]
      intro r hr
      simpa using hnone r hr
    refine ⟨?_, ?_⟩
    · unfold updateFeedConsumption
      rw [hfind]
    · exact strHasSub_append _ _ _ (by decide)
  · intro id hnone
    have hfind : db.feedConsumptions.find? (fun r => r.id == id) = none := by
      rw [List.find?_eq_none]
      intro r hr
      simpa using hnone r hr
    refine ⟨?_, ?_⟩
    · unfold deleteFeedConsumption
      rw [hfind]
    · exact strHasSub_append _ _ _ (by decide)
  · intro i hnone
    have hfind : db.eggProductions.find? (fun r => r.id == i.id) = none := by
      rw [List.find?_eq_none]
      intro r hr
      simpa using hnone r hr
    refine ⟨?_, ?_⟩
    · unfold updateEggProduction
      rw [hfind]
    · exact strHasSub_append _ _ _ (by decide)
  · intro id hnone
    have hfind : db.eggProductions.find? (fun r => r.id == id) = none := by
      rw [List.find?_eq_none]
      intro r hr
      simpa using hnone r hr
    refine ⟨?_, ?_⟩
    · unfold deleteEggProduction
      rw [hfind]
    · exact strHasSub_append _ _ _ (by decide)
  · intro i hnone
    have hfind : db.eggSales.find? (fun r => r.id == i.id) = none := by
      rw [List.find?_eq_none]
      intro r hr
      simpa using hnone r hr
    refine ⟨?_, ?_⟩
    · unfold updateEggSales
      rw [hfind]
    · decide
  · intro id hnone
    have hfind : db.eggSales.find? (fun r => r.id == id) = none := by
      rw [List.find?_eq_none]
      intro r hr
      simpa using hnone r hr
    refine ⟨?_, ?_⟩
    · unfold deleteEggSales
      rw [hfind]
    · decide
  · intro i hnone
    have hfind : db.otherExpenses.find? (fun r => r.id == i.id) = none := by
      rw [List.find?_eq_none]
      intro r hr
      simpa using hnone r hr
    refine ⟨?_, ?_⟩
    · unfold updateOtherExpenses
      rw [hfind]
    · decide
  · intro id hnone
    have hfind : db.otherExpenses.find? (fun r => r.id == id) = none := by
      rw [List.find?_eq_none]
      intro r hr
      simpa using hnone r hr
    refine ⟨?_, ?_⟩
    · unfold deleteOtherExpenses
      rw [hfind]
    · decide

/-- Claim C6 witness: on the empty store, updating raw material 999 and deleting
expense 999 both fail with their not-found errors. -/
theorem update_delete_missing_id_witness :
    (∀ r ∈ DB.empty.rawMaterials, r.id ≠ u999RM.id) ∧
    (updateRawFeedMaterial u999RM DB.empty =
        .error ("Raw feed material with id " ++ toString u999RM.id ++ " not found") ∧
      strHasSub ("Raw feed material with id " ++ toString u999RM.id ++ " not found")
        "not found" = true) ∧
    (∀ r ∈ DB.empty.otherExpenses, r.id ≠ 999) ∧
    (deleteOtherExpenses 999 DB.empty = .error "Other expense not found" ∧
      strHasSub "Other expense not found" "not found" = true) :=
  ⟨by decide,
   (update_delete_missing_id DB.empty).1 u999RM (by decide),
   by decide,
   (update_delete_missing_id DB.empty).2.2.2.2.2.2.2.2.2.2.2.2.2.2.2 999 (by decide)⟩

/-- Claim C6 counterexample: the egg-production delete error at id 999 is
"... does not exist" and is NOT matched by the substring "not found", refuting
the claim that every entity's not-found message matches "not found". -/
theorem update_delete_missing_id_counterexample :
    deleteEggProduction 999 DB.empty =
      .error ("Egg production record with id " ++ toString (999 : Nat) ++
        " does not exist") ∧
    strHasSub ("Egg production record with id " ++ toString (999 : Nat) ++
      " does not exist") "not found" = false :=
  ⟨rfl, by decide⟩

/-- Claim C7: every create that references another entity by id fails with a thrown
error when the referenced id does not exist (and, the handlers erroring before
any write, inserts nothing): `createFeedConsumption` for its flock and feed,
`createEggProduction` for its flock, `createFeedComposition` for its feed and
material. -/
theorem create_foreign_key_missing (db : DB) :
    (∀ (i : CreateFeedConsumptionInput), (∀ r ∈ db.chickenFlocks, r.id ≠ i.flock_id) →
      createFeedConsumption i db =
        .error ("Flock with ID " ++ toString i.flock_id ++ " not found")) ∧
    (∀ (i : CreateFeedConsumptionInput) (flock : ChickenFlock),
      db.chickenFlocks.find? (fun f => f.id == i.flock_id) = some flock →
      (∀ r ∈ db.finishedFeeds, r.id ≠ i.finished_feed_id) →
      createFeedConsumption i db =
        .error ("Finished feed with ID " ++ toString i.finished_feed_id ++ " not found")) ∧
    (∀ (i : CreateEggProductionInput), (∀ r ∈ db.chickenFlocks, r.id ≠ i.flock_id) →
      createEggProduction i db =
        .error ("Flock with id " ++ toString i.flock_id ++ " does not exist")) ∧
    (∀ (i : CreateFeedCompositionInput), (∀ r ∈ db.finishedFeeds, r.id ≠ i.finished_feed_id) →
      createFeedComposition i db =
        .error ("Finished feed with id " ++ toString i.finished_feed_id ++ " not found")) ∧
    (∀ (i : CreateFeedCompositionInput) (feed : FinishedFeed),
      db.finishedFeeds.find? (fun f => f.id == i.finished_feed_id) = some feed →
      (∀ r ∈ db.rawMaterials, r.id ≠ i.raw_material_id) →
      createFeedComposition i db =
        .error ("Raw material with id " ++ toString i.raw_material_id ++ " not found")) := by
  refine ⟨?_, ?_, ?_, ?_, ?_⟩
  · intro i hnone
    have hfind : db.chickenFlocks.find? (fun f => f.id == i.flock_id) = none := by
      rw [List.find?_eq_none]
      intro r hr
      simpa using hnone r hr
    unfold createFeedConsumption
    rw [hfind]
  · intro i flock hflock hnone
    have hfind : db.finishedFeeds.find? (fun f => f.id == i.finished_feed_id) = none := by
      rw [List.find?_eq_none]
      intro r hr
      simpa using hnone r hr
    unfold createFeedConsumption
    rw [hflock, hfind]
  · intro i hnone
    have hfind : db.chickenFlocks.find? (fun f => f.id == i.flock_id) = none := by
      rw [List.find?_eq_none]
      intro r hr
      simpa using hnone r hr
    unfold createEggProduction
    rw [hfind]
  · intro i hnone
    have hfind : db.finishedFeeds.find? (fun f => f.id == i.finished_feed_id) = none := by
      rw [List.find?_eq_none]
      intro r hr
      simpa using hnone r hr
    unfold createFeedComposition
    rw [hfind]
  · intro i feed hfeed hnone
    have hfind : db.rawMaterials.find? (fun m => m.id == i.raw_material_id) = none := by
      rw [List.find?_eq_none]
      intro r hr
      simpa using hnone r hr
    unfold createFeedComposition
    rw [hfeed, hfind]

/-- Claim C7 witness: on the sample store, creating a consumption for the
nonexistent flock 999 fails with the flock error. -/
theorem create_foreign_key_missing_witness :
    (∀ r ∈ sampleDb.chickenFlocks, r.id ≠ consBadFlockIn.flock_id) ∧
    createFeedConsumption consBadFlockIn sampleDb =
      .error ("Flock with ID " ++ toString consBadFlockIn.flock_id ++ " not found") :=
  ⟨by decide, (create_foreign_key_missing sampleDb).1 consBadFlockIn (by decide)⟩

/-- Claim C8 (amended): a successful delete changes no rows of any other entity,
with one exception: `deleteFeedComposition` also rewrites the referenced
finished feed's row, recomputing its `cost_per_kg` (id and name are
preserved).  In particular deleting a flock leaves consumption and production
rows unchanged. -/
theorem delete_frame_effects (db : DB) :
    (∀ (id : Nat) (u : Unit) (db' : DB), deleteRawFeedMaterial id db = .ok (u, db') →
      db'.finishedFeeds = db.finishedFeeds ∧ db'.feedCompositions = db.feedCompositions ∧
      db'.chickenFlocks = db.chickenFlocks ∧ db'.feedConsumptions = db.feedConsumptions ∧
      db'.eggProductions = db.eggProductions ∧ db'.eggSales = db.eggSales ∧
      db'.otherExpenses = db.otherExpenses) ∧
    (∀ (id : Nat) (u : Unit) (db' : DB), deleteFinishedFeed id db = .ok (u, db') →
      db'.rawMaterials = db.rawMaterials ∧ db'.feedCompositions = db.feedCompositions ∧
      db'.chickenFlocks = db.chickenFlocks ∧ db'.feedConsumptions = db.feedConsumptions ∧
      db'.eggProductions = db.eggProductions ∧ db'.eggSales = db.eggSales ∧
      db'.otherExpenses = db.otherExpenses) ∧
    (∀ (id : Nat) (u : Unit) (db' : DB), deleteChickenFlock id db = .ok (u, db') →
      db'.rawMaterials = db.rawMaterials ∧ db'.finishedFeeds = db.finishedFeeds ∧
      db'.feedCompositions = db.feedCompositions ∧ db'.feedConsumptions = db.feedConsumptions ∧
      db'.eggProductions = db.eggProductions ∧ db'.eggSales = db.eggSales ∧
      db'.otherExpenses = db.otherExpenses) ∧
    (∀ (id : Nat) (u : Unit) (db' : DB), deleteFeedConsumption id db = .ok (u, db') →
      db'.rawMaterials = db.rawMaterials ∧ db'.finishedFeeds = db.finishedFeeds ∧
      db'.feedCompositions = db.feedCompositions ∧ db'.chickenFlocks = db.chickenFlocks ∧
      db'.eggProductions = db.eggProductions ∧ db'.eggSales = db.eggSales ∧
      db'.otherExpenses = db.otherExpenses) ∧
    (∀ (id : Nat) (u : Unit) (db' : DB), deleteEggProduction id db = .ok (u, db') →
      db'.rawMaterials = db.rawMaterials ∧ db'.finishedFeeds = db.finishedFeeds ∧
      db'.feedCompositions = db.feedCompositions ∧ db'.chickenFlocks = db.chickenFlocks ∧
      db'.feedConsumptions = db.feedConsumptions ∧ db'.eggSales = db.eggSales ∧
      db'.otherExpenses = db.otherExpenses) ∧
    (∀ (id : Nat) (u : Unit) (db' : DB), deleteEggSales id db = .ok (u, db') →
      db'.rawMaterials = db.rawMaterials ∧ db'.finishedFeeds = db.finishedFeeds ∧
      db'.feedCompositions = db.feedCompositions ∧ db'.chickenFlocks = db.chickenFlocks ∧
      db'.feedConsumptions = db.feedConsumptions ∧ db'.eggProductions = db.eggProductions ∧
      db'.otherExpenses = db.otherExpenses) ∧
    (∀ (id : Nat) (u : Unit) (db' : DB), deleteOtherExpenses id db = .ok (u, db') →
      db'.rawMaterials = db.rawMaterials ∧ db'.finishedFeeds = db.finishedFeeds ∧
      db'.feedCompositions = db.feedCompositions ∧ db'.chickenFlocks = db.chickenFlocks ∧
      db'.feedConsumptions = db.feedConsumptions ∧ db'.eggProductions = db.eggProductions ∧
      db'.eggSales = db.eggSales) ∧
    (∀ (id : Nat) (c : FeedComposition) (u : Unit) (db' : DB),
      db.feedCompositions.find? (fun r => r.id == id) = some c →
      deleteFeedComposition id db = .ok (u, db') →
      (db'.rawMaterials = db.rawMaterials ∧ db'.chickenFlocks = db.chickenFlocks ∧
       db'.feedConsumptions = db.feedConsumptions ∧
       db'.eggProductions = db.eggProductions ∧ db'.eggSales = db.eggSales ∧
       db'.otherExpenses = db.otherExpenses) ∧
      (∀ f ∈ db'.finishedFeeds, ∃ g ∈ db.finishedFeeds, f.id = g.id ∧ f.name = g.name)) := by
  refine ⟨?_, ?_, ?_, ?_, ?_, ?_, ?_, ?_⟩
  · intro id u db' h
    exact deleteRawFeedMaterial_frame h
  · intro id u db' h
    exact deleteFinishedFeed_frame h
  · intro id u db' h
    exact deleteChickenFlock_frame h
  · intro id u db' h
    exact deleteFeedConsumption_frame h
  · intro id u db' h
    exact deleteEggProduction_frame h
  · intro id u db' h
    exact deleteEggSales_frame h
  · intro id u db' h
    exact deleteOtherExpenses_frame h
  · intro id c u db' hfind h
    refine ⟨?_, ?_⟩
    · obtain ⟨h1, h2, h3, h4, h5, h6⟩ := deleteFeedComposition_frame h
      exact ⟨h1, h2, h3, h4, h5, h6⟩
    · unfold deleteFeedComposition at h
      rw [hfind] at h
      simp only [Except.ok.injEq, Prod.mk.injEq] at h
      obtain ⟨-, h⟩ := h
      subst h
      intro f hf
      unfold updateFinishedFeedCost at hf
      simp only [List.mem_map] at hf
      obtain ⟨g, hg, rfl⟩ := hf
      refine ⟨g, hg, ?_⟩
      by_cases hid : (g.id == c.finished_feed_id) = true <;> simp [hid]

/-- Claim C8 witness: deleting flock 1 from the sample store leaves all seven other
tables unchanged. -/
theorem delete_frame_effects_witness :
    (deleteChickenFlock 1 sampleDb =
      .ok ((), okStateOr DB.empty (deleteChickenFlock 1 sampleDb))) ∧
    ((okStateOr DB.empty (deleteChickenFlock 1 sampleDb)).rawMaterials = sampleDb.rawMaterials ∧
     (okStateOr DB.empty (deleteChickenFlock 1 sampleDb)).finishedFeeds = sampleDb.finishedFeeds ∧
     (okStateOr DB.empty (deleteChickenFlock 1 sampleDb)).feedCompositions = sampleDb.feedCompositions ∧
     (okStateOr DB.empty (deleteChickenFlock 1 sampleDb)).feedConsumptions = sampleDb.feedConsumptions ∧
     (okStateOr DB.empty (deleteChickenFlock 1 sampleDb)).eggProductions = sampleDb.eggProductions ∧
     (okStateOr DB.empty (deleteChickenFlock 1 sampleDb)).eggSales = sampleDb.eggSales ∧
     (okStateOr DB.empty (deleteChickenFlock 1 sampleDb)).otherExpenses = sampleDb.otherExpenses) :=
  ⟨rfl,
   (delete_frame_effects sampleDb).2.2.1 1 ()
     (okStateOr DB.empty (deleteChickenFlock 1 sampleDb)) rfl⟩

/-- Claim C8 counterexample: deleting feed composition 1 on the sample store
succeeds and rewrites the finished-feeds table (the feed's cost drops from 3
to the recomputed 0), refuting "deleting a feed composition leaves every
finished-feed row unchanged". -/
theorem delete_frame_effects_counterexample :
    deleteFeedComposition 1 sampleDb =
      .ok ((), okStateOr DB.empty (deleteFeedComposition 1 sampleDb)) ∧
    (okStateOr DB.empty (deleteFeedComposition 1 sampleDb)).finishedFeeds ≠
      sampleDb.finishedFeeds :=
  ⟨rfl, by decide⟩

/-- Claim C9: no sum-to-100 validation exists: through the API (each percentage
individually within the zod bound 0..100), two successive compositions of 60 %
each for the same feed both succeed — their sum is 120 — and the feed's cost
is recomputed accordingly (0.6 * 2 + 0.6 * 3 = 3). -/
theorem composition_percentages_over_100 :
    createFeedCompositionInputValid
      { finished_feed_id := 1, raw_material_id := 1, percentage := 60 } ∧
    createFeedCompositionInputValid
      { finished_feed_id := 1, raw_material_id := 2, percentage := 60 } ∧
    ((60 : ℚ) + 60 > 100) ∧
    (createFeedComposition
      { finished_feed_id := 1, raw_material_id := 1, percentage := 60 } overDb3).isOk = true ∧
    (createFeedComposition
      { finished_feed_id := 1, raw_material_id := 2, percentage := 60 } overDb4).isOk = true ∧
    overDb5.finishedFeeds.map (fun f => (f.id, f.cost_per_kg)) = [(1, 3)] := by
  refine ⟨by decide, by decide, by norm_num, rfl, rfl, ?_⟩
  norm_num [overDb5, overDb4, overDb3, overDb2, overDb1, DB.empty, okStateOr,
    createRawFeedMaterial, createFinishedFeed, createFeedComposition,
    updateFinishedFeedCost, feedCostOf]

/-- Claim C10: `createFeedComposition` rejects a duplicate (finished feed, raw
material) pair with an "already exists" error and inserts nothing, and the
three composition handlers preserve at-most-one-composition-per-pair (no other
handler writes this table), so at most one composition per pair can be created
through the API. -/
theorem composition_duplicate_pair (db : DB) :
    (∀ (i : CreateFeedCompositionInput),
      (∃ f ∈ db.finishedFeeds, f.id = i.finished_feed_id) →
      (∃ m ∈ db.rawMaterials, m.id = i.raw_material_id) →
      (∃ c ∈ db.feedCompositions, c.finished_feed_id = i.finished_feed_id ∧
        c.raw_material_id = i.raw_material_id) →
      createFeedComposition i db =
        .error ("Composition already exists for finished feed " ++
          toString i.finished_feed_id ++ " and raw material " ++
          toString i.raw_material_id) ∧
      strHasSub ("Composition already exists for finished feed " ++
        toString i.finished_feed_id ++ " and raw material " ++
        toString i.raw_material_id) "already exists" = true) ∧
    (∀ (i : CreateFeedCompositionInput) (c : FeedComposition) (db' : DB),
      createFeedComposition i db = .ok (c, db') → pairsUnique db → pairsUnique db') ∧
    (∀ (i : UpdateFeedCompositionInput) (c : FeedComposition) (db' : DB),
      updateFeedComposition i db = .ok (c, db') → compIdsUnique db →
      pairsUnique db → pairsUnique db') ∧
    (∀ (id : Nat) (u : Unit) (db' : DB),
      deleteFeedComposition id db = .ok (u, db') → pairsUnique db → pairsUnique db') := by
  refine ⟨?_, ?_, ?_, ?_⟩
  · intro i hf hm hdup
    obtain ⟨c0, hc0mem, hc01, hc02⟩ := hdup
    have hany : (db.feedCompositions.any (fun c =>
        c.finished_feed_id == i.finished_feed_id &&
          c.raw_material_id == i.raw_material_id)) = true := by
      rw [List.any_eq_true]
      exact ⟨c0, hc0mem, by simp [hc01, hc02]⟩
    cases hfeedfind : db.finishedFeeds.find? (fun f => f.id == i.finished_feed_id) with
    | none =>
        obtain ⟨f, hfmem, hfid⟩ := hf
        have := List.find?_eq_none.mp hfeedfind f hfmem
        simp [hfid] at this
    | some feed =>
        cases hmatfind : db.rawMaterials.find? (fun m => m.id == i.raw_material_id) with
        | none =>
            obtain ⟨m, hmmem, hmid⟩ := hm
            have := List.find?_eq_none.mp hmatfind m hmmem
            simp [hmid] at this
        | some mat =>
            constructor
            · unfold createFeedComposition
              rw [hfeedfind, hmatfind]
              simp [hany]
            · exact strHasSub_append_left _ _ _
                (strHasSub_append_left _ _ _
                  (strHasSub_append_left _ _ _ (by decide)))
  · intro i c db' h hpu
    unfold createFeedComposition at h
    split at h
    · simp at h
    · split at h
      · simp at h
      · split at h
        · simp at h
        · rename_i hnodup
          simp only [Except.ok.injEq, Prod.mk.injEq] at h
          obtain ⟨-, h⟩ := h
          subst h
          unfold pairsUnique at hpu ⊢
          show (db.feedCompositions ++
            [({ id := db.nextCompositionId, finished_feed_id := i.finished_feed_id,
                raw_material_id := i.raw_material_id,
                percentage := i.percentage } : FeedComposition)]).Pairwise _
          rw [List.pairwise_append]
          refine ⟨hpu, by simp, ?_⟩
          intro a ha b hb
          simp only [List.mem_singleton] at hb
          subst hb
          have : ¬((a.finished_feed_id == i.finished_feed_id &&
              a.raw_material_id == i.raw_material_id) = true) := by
            intro hcontra
            exact hnodup (List.any_eq_true.mpr ⟨a, ha, hcontra⟩)
          simp only [Bool.and_eq_true, beq_iff_eq] at this
          tauto
  · intro i c db' h hids hpu
    unfold updateFeedComposition at h
    split at h
    · simp at h
    · rename_i c0 hfind
      simp only [Except.ok.injEq, Prod.mk.injEq] at h
      obtain ⟨-, h⟩ := h
      subst h
      unfold pairsUnique at hpu ⊢
      unfold compIdsUnique at hids
      show (db.feedCompositions.map _).Pairwise _
      rw [List.pairwise_map]
      have hc0mem : c0 ∈ db.feedCompositions := List.mem_of_find?_eq_some hfind
      have hc0id : (c0.id == i.id) = true := by
        have := List.find?_some hfind
        simpa using this
      have hsame : ∀ a ∈ db.feedCompositions,
          ((if a.id == i.id then
              { c0 with percentage := i.percentage.getD c0.percentage }
            else a) : FeedComposition).finished_feed_id = a.finished_feed_id ∧
          ((if a.id == i.id then
              { c0 with percentage := i.percentage.getD c0.percentage }
            else a) : FeedComposition).raw_material_id = a.raw_material_id := by
        intro a ha
        by_cases hid : (a.id == i.id) = true
        · have hsymm : Symmetric (fun x y : FeedComposition => x.id ≠ y.id) :=
            fun x y hxy h => hxy h.symm
          have haeq : a = c0 := by
            by_contra hne
            have hdiff := List.Pairwise.forall hsymm hids ha hc0mem hne
            have h1 : a.id = i.id := by simpa using hid
            have h2 : c0.id = i.id := by simpa using hc0id
            exact hdiff (h1.trans h2.symm)
          subst haeq
          simp [hid]
        · simp [hid]
      refine List.Pairwise.imp_of_mem ?_ hpu
      intro a b ha hb hab
      obtain ⟨ha1, ha2⟩ := hsame a ha
      obtain ⟨hb1, hb2⟩ := hsame b hb
      rw [ha1, ha2, hb1, hb2]
      exact hab
  · intro id u db' h hpu
    unfold deleteFeedComposition at h
    split at h
    · simp at h
    · simp only [Except.ok.injEq, Prod.mk.injEq] at h
      obtain ⟨-, h⟩ := h
      subst h
      unfold pairsUnique at hpu ⊢
      exact List.Pairwise.sublist (List.filter_sublist _) hpu

/-- Claim C10 witness: on the sample store a second composition for (feed 1,
material 1) is rejected with the "already exists" error. -/
theorem composition_duplicate_pair_witness :
    (∃ f ∈ sampleDb.finishedFeeds, f.id = dupCompIn.finished_feed_id) ∧
    (∃ m ∈ sampleDb.rawMaterials, m.id = dupCompIn.raw_material_id) ∧
    (∃ c ∈ sampleDb.feedCompositions, c.finished_feed_id = dupCompIn.finished_feed_id ∧
      c.raw_material_id = dupCompIn.raw_material_id) ∧
    (createFeedComposition dupCompIn sampleDb =
        .error ("Composition already exists for finished feed " ++
          toString dupCompIn.finished_feed_id ++ " and raw material " ++
          toString dupCompIn.raw_material_id) ∧
      strHasSub ("Composition already exists for finished feed " ++
        toString dupCompIn.finished_feed_id ++ " and raw material " ++
        toString dupCompIn.raw_material_id) "already exists" = true) :=
  ⟨by decide, by decide, by decide,
   (composition_duplicate_pair sampleDb).1 dupCompIn (by decide) (by decide) (by decide)⟩

end ChickenFarm
